import Mathlib

/-!
# Verification of the blackfriday travel-deal optimizer core

Shallow embedding of the Python sources (`app/calculator.py`, `app/tracker.py`,
`app/alerts.py`, `app/models.py`) into Lean 4, together with theorems settling
the frozen claims about the specification.

Modelling conventions:
* Python floats are modelled as exact rationals (`ℚ`); `round(x, n)` is
  modelled as round-half-to-even on the exact value.
* Python `dict` tables are modelled as association lists (`List (K × V)`) or,
  where only lookup/update matters, as functions `K → Option V`.
* Fallible Python code (`TypeError` on `None` arithmetic, `ZeroDivisionError`)
  is modelled with `Except PyErr`.
* Mutation of dataclass fields is modelled by returning an updated record.
-/

/-- Round a rational to the nearest integer, ties to even
(the rounding mode of Python's built-in `round`). -/
def pyRoundInt (q : ℚ) : ℤ :=
  let f : ℤ := ⌊q⌋
  let frac : ℚ := q - (f : ℚ)
  if frac < 1/2 then f
  else if 1/2 < frac then f + 1
  else if f % 2 = 0 then f else f + 1

/-- Python `round(x, 2)` on exact values. -/
def round2 (q : ℚ) : ℚ := (pyRoundInt (q * 100) : ℚ) / 100

/-- Python `dict.get(k, default)` on an association-list table. -/
def lookupD (tbl : List (String × ℚ)) (k : String) (d : ℚ) : ℚ :=
  match tbl.lookup k with
  | some v => v
  | none => d

/-- `app/models.py` `DealType`. -/
inductive DealType where
  | FLIGHT_CASH
  | FLIGHT_AWARD
  | HOTEL_CASH
  | HOTEL_POINTS
  | ALL_INCLUSIVE
  | PACKAGE
  deriving DecidableEq, Repr

/-- The `.value` string of each `DealType` member. -/
def DealType.value : DealType → String
  | .FLIGHT_CASH => "flight_cash"
  | .FLIGHT_AWARD => "flight_award"
  | .HOTEL_CASH => "hotel_cash"
  | .HOTEL_POINTS => "hotel_points"
  | .ALL_INCLUSIVE => "all_inclusive"
  | .PACKAGE => "package"

/-- `app/models.py` `CabinClass`. -/
inductive CabinClass where
  | ECONOMY
  | PREMIUM_ECONOMY
  | BUSINESS
  | FIRST
  deriving DecidableEq, Repr

/-- `app/models.py` `DealStatus`. -/
inductive DealStatus where
  | EXCELLENT
  | GOOD
  | ACCEPTABLE
  | POOR
  | EXPIRED
  deriving DecidableEq, Repr

/-- The `.value` string of each `DealStatus` member. -/
def DealStatus.value : DealStatus → String
  | .EXCELLENT => "excellent"
  | .GOOD => "good"
  | .ACCEPTABLE => "acceptable"
  | .POOR => "poor"
  | .EXPIRED => "expired"

/-- `app/calculator.py` `ValueConfig` (the fields the core computations read). -/
structure ValueConfig where
  baseline_cpp : List (String × ℚ)
  target_cpp : List (String × ℚ)
  min_cpp : List (String × ℚ)
  upgrade_probability : ℚ
  upgrade_value_multiplier : ℚ
  companion_cert_value : ℚ
  family_size : ℤ
  max_budget : ℚ
  target_budget : ℚ

/-- `ValueCalculator.calculate_cpp` (`app/calculator.py`): cents-per-point,
`0.0` when `points_price <= 0`, else `round(((cash - taxes) / points) * 100, 2)`. -/
def calculate_cpp (cash_price : ℚ) (points_price : ℤ) (taxes_fees : ℚ) : ℚ :=
  if points_price ≤ 0 then 0
  else round2 ((cash_price - taxes_fees) / (points_price : ℚ) * 100)

/-- `quick_cpp_calc` (`app/calculator.py`), same computation as `calculate_cpp`. -/
def quick_cpp_calc (cash_price : ℚ) (points : ℤ) (taxes : ℚ) : ℚ :=
  if points ≤ 0 then 0
  else round2 ((cash_price - taxes) / (points : ℚ) * 100)

/-- C2: `calculate_cpp` returns 0 when the points price is ≤ 0 and otherwise
`((cash − taxes) / points) × 100` rounded half-even to 2 decimal places; in
particular `calculate_cpp 800 45000 50 = 1.67`. -/
theorem calculate_cpp_spec (cash taxes : ℚ) (points : ℤ) :
    calculate_cpp cash points taxes =
      (if points ≤ 0 then 0
       else round2 ((cash - taxes) / (points : ℚ) * 100)) ∧
    calculate_cpp 800 45000 50 = 167/100 := by
  refine ⟨rfl, ?_⟩
  norm_num [calculate_cpp, round2, pyRoundInt]

/-- Calendar date (proleptic Gregorian).  Python `date` arithmetic
`(b - a).days` is modelled as `b.toDays - a.toDays`. -/
structure Date where
  year : ℤ
  month : ℤ
  day : ℤ
  deriving DecidableEq, Repr

/-- Days since 1970-01-01, the standard civil-calendar conversion
(divisions truncate toward zero, as in the reference algorithm). -/
def Date.toDays (dt : Date) : ℤ :=
  let y := if dt.month ≤ 2 then dt.year - 1 else dt.year
  let era := Int.tdiv (if 0 ≤ y then y else y - 399) 400
  let yoe := y - era * 400
  let mp := (dt.month + 9) % 12
  let doy := Int.tdiv (153 * mp + 2) 5 + dt.day - 1
  let doe := yoe * 365 + Int.tdiv yoe 4 - Int.tdiv yoe 100 + doy
  era * 146097 + doe - 719468

/-- Zero-padded two-digit rendering used by ISO date formatting. -/
def pad2 (n : ℤ) : String :=
  if n < 10 then "0" ++ toString n else toString n

/-- Python `str(date)` / `date.isoformat()`. -/
def Date.iso (dt : Date) : String :=
  toString dt.year ++ "-" ++ pad2 dt.month ++ "-" ++ pad2 dt.day

/-- Python `date.strftime("%Y-%m")`. -/
def Date.ym (dt : Date) : String :=
  toString dt.year ++ "-" ++ pad2 dt.month

/-- Runtime exceptions of the modelled Python code paths. -/
inductive PyErr where
  | typeError
  | zeroDivisionError
  deriving DecidableEq, Repr

/-- Python `opt or default` on an optional string
(both `None` and `""` fall through to the default). -/
def orS (o : Option String) (d : String) : String :=
  match o with
  | some c => if c = "" then d else c
  | none => d

/-- Python `str.lower()` (character-wise lowercasing). -/
def pyLower (s : String) : String := ⟨s.data.map Char.toLower⟩

/-- Data model of `app/models.py` `FlightDeal`.  Fields never read by the
verified code paths (`flight_numbers`, `source`, `booking_url`, `found_at`,
`expires_at`) are omitted. -/
structure FlightDeal where
  origin : String
  destination : String
  departure_date : Date
  return_date : Date
  deal_type : DealType
  price_cash : Option ℚ
  price_points : Option ℤ
  points_currency : Option String
  taxes_fees : ℚ
  airline : String
  cabin_class : CabinClass
  stops : ℤ
  cpp_value : Option ℚ
  total_value : Option ℚ
  savings_vs_cash : Option ℚ
  status : DealStatus
  notes : String
  deriving DecidableEq, Repr

/-- The `mexico_caribbean` row of `region_bases` in
`ValueCalculator._estimate_flight_cash_price`. -/
def mexico_caribbean_bases : List (String × ℚ) :=
  [("CUN", 400), ("PVR", 450), ("SJD", 500), ("MBJ", 500), ("PUJ", 550), ("AUA", 600)]

/-- The `europe` row of `region_bases`. -/
def europe_bases : List (String × ℚ) :=
  [("FCO", 900), ("BCN", 850), ("MAD", 850), ("ATH", 950), ("LIS", 900), ("MXP", 900), ("NAP", 950)]

/-- `cabin_multipliers` table (all four cabin classes are present, so the
`.get(..., 1.0)` default of the source is unreachable). -/
def cabin_multiplier : CabinClass → ℚ
  | .ECONOMY => 1
  | .PREMIUM_ECONOMY => 9/5
  | .BUSINESS => 4
  | .FIRST => 8

/-- `ValueCalculator._estimate_flight_cash_price`: region base fare
(default 600), cabin multiplier, nonstop premium ×1.2, scaled by family
size.  The Python loop scans the region tables in insertion order. -/
def _estimate_flight_cash_price (config : ValueConfig) (deal : FlightDeal) : ℚ :=
  let base_price : ℚ :=
    match mexico_caribbean_bases.lookup deal.destination with
    | some b => b
    | none =>
      match europe_bases.lookup deal.destination with
      | some b => b
      | none => 600
  let price := base_price * cabin_multiplier deal.cabin_class
  let price := if deal.stops = 0 then price * (6/5) else price
  price * (config.family_size : ℚ)

/-- `ValueCalculator._evaluate_flight_status`.  Comparing `None` against a
number is a `TypeError` in Python; dividing by a zero estimate is a
`ZeroDivisionError`. -/
def _evaluate_flight_status (config : ValueConfig) (deal : FlightDeal) :
    Except PyErr DealStatus :=
  if deal.deal_type = .FLIGHT_AWARD then
    let currency := orS deal.points_currency "delta_skymiles"
    let target_cpp := lookupD config.target_cpp currency (3/2)
    let min_cpp := lookupD config.min_cpp currency 1
    let excellent_cpp := target_cpp * (13/10)
    match deal.cpp_value with
    | none => .error .typeError
    | some cpp =>
      pure (if cpp ≥ excellent_cpp then .EXCELLENT
            else if cpp ≥ target_cpp then .GOOD
            else if cpp ≥ min_cpp then .ACCEPTABLE
            else .POOR)
  else
    let estimated := _estimate_flight_cash_price config deal
    match deal.price_cash with
    | none => .error .typeError
    | some pc =>
      if estimated = 0 then .error .zeroDivisionError
      else
        let discount_pct := (estimated - pc) / estimated * 100
        pure (if discount_pct ≥ 30 then .EXCELLENT
              else if discount_pct ≥ 20 then .GOOD
              else if discount_pct ≥ 0 then .ACCEPTABLE
              else .POOR)

/-- The note appended by the Delta Diamond branch of
`evaluate_flight_deal`; `f"{x:.0f}"` rounds half-even to an integer. -/
def diamondNote (bonus : ℚ) : String :=
  " [Diamond upgrade potential: +$" ++ toString (pyRoundInt bonus) ++ " expected value]"

/-- `ValueCalculator.evaluate_flight_deal`: populates value metrics, appends
the Delta Diamond note for Delta economy deals, then recomputes status. -/
def evaluate_flight_deal (config : ValueConfig) (deal : FlightDeal)
    (baseline_cash_price : Option ℚ) : Except PyErr FlightDeal := do
  let family_size := config.family_size
  let deal ←
    if deal.deal_type = .FLIGHT_CASH then
      pure { deal with total_value := deal.price_cash, cpp_value := none }
    else if deal.deal_type = .FLIGHT_AWARD then
      let cash_equivalent : ℚ :=
        match baseline_cash_price with
        | some b => if b = 0 then _estimate_flight_cash_price config deal else b
        | none => _estimate_flight_cash_price config deal
      match deal.price_points with
      | none => Except.error .typeError
      | some pp =>
        let total_points := pp * family_size
        let total_taxes := deal.taxes_fees * (family_size : ℚ)
        let cpp := calculate_cpp cash_equivalent total_points total_taxes
        pure { deal with
          cpp_value := some cpp,
          total_value := some cash_equivalent,
          savings_vs_cash := some (cash_equivalent - total_taxes) }
    else
      pure deal
  let deal ←
    if pyLower deal.airline = "delta" ∧ deal.cabin_class = .ECONOMY then
      match deal.total_value with
      | none => Except.error .typeError
      | some tv =>
        let upgrade_bonus :=
          config.upgrade_probability * tv * (config.upgrade_value_multiplier - 1)
        pure { deal with notes := deal.notes ++ diamondNote upgrade_bonus }
    else
      pure deal
  let st ← _evaluate_flight_status config deal
  pure { deal with status := st }

/-- Data model of `app/models.py` `HotelDeal` (presentation-only fields that
no verified code path reads are omitted). -/
structure HotelDeal where
  destination : String
  property_name : String
  check_in : Date
  check_out : Date
  deal_type : DealType
  price_per_night_cash : Option ℚ
  price_per_night_points : Option ℤ
  points_currency : Option String
  total_price_cash : Option ℚ
  total_price_points : Option ℤ
  resort_fees : ℚ
  is_all_inclusive : Bool
  cpp_value : Option ℚ
  per_person_per_night : Option ℚ
  status : DealStatus
  notes : String
  deriving DecidableEq, Repr

/-- `ValueCalculator.evaluate_hotel_deal`.  The all-inclusive branch computes
`total = total_price_cash or price_per_night_cash * nights` (Python `or`
treats both `None` and `0` as missing), then divides by
`nights * family_size`, which raises `ZeroDivisionError` when that product
is zero; multiplying `None` raises `TypeError`. -/
def evaluate_hotel_deal (config : ValueConfig) (deal : HotelDeal)
    (baseline_cash_price : Option ℚ) : Except PyErr HotelDeal :=
  let nights : ℤ := deal.check_out.toDays - deal.check_in.toDays
  if deal.deal_type = .HOTEL_CASH ∨ deal.deal_type = .ALL_INCLUSIVE then
    if deal.is_all_inclusive then
      let perNightTotal : Except PyErr ℚ :=
        match deal.price_per_night_cash with
        | some p => pure (p * (nights : ℚ))
        | none => Except.error .typeError
      let total : Except PyErr ℚ :=
        match deal.total_price_cash with
        | some t => if t = 0 then perNightTotal else pure t
        | none => perNightTotal
      match total with
      | Except.error e => Except.error e
      | Except.ok total =>
        if ((nights : ℚ) * (config.family_size : ℚ)) = 0 then
          Except.error .zeroDivisionError
        else
          let pppn := total / ((nights : ℚ) * (config.family_size : ℚ))
          let status :=
            if pppn ≤ 250 then DealStatus.EXCELLENT
            else if pppn ≤ 350 then DealStatus.GOOD
            else if pppn ≤ 450 then DealStatus.ACCEPTABLE
            else DealStatus.POOR
          pure { deal with per_person_per_night := some pppn, status := status }
    else
      pure deal
  else if deal.deal_type = .HOTEL_POINTS then
    match baseline_cash_price, deal.total_price_points with
    | some b, some tp =>
      if b ≠ 0 ∧ tp ≠ 0 then
        let cpp := calculate_cpp b tp deal.resort_fees
        let currency := orS deal.points_currency "hilton"
        let target_cpp := lookupD config.target_cpp currency (1/2)
        let min_cpp := lookupD config.min_cpp currency (2/5)
        let status :=
          if cpp ≥ target_cpp * (13/10) then DealStatus.EXCELLENT
          else if cpp ≥ target_cpp then DealStatus.GOOD
          else if cpp ≥ min_cpp then DealStatus.ACCEPTABLE
          else DealStatus.POOR
        pure { deal with cpp_value := some cpp, status := status }
      else
        pure deal
    | _, _ => pure deal
  else
    pure deal

/-- Data model of `app/models.py` `TripPackage` (the presentation fields
`points_currencies_used`, `recommendation` and `booking_steps`, which no
claimed property depends on, are omitted). -/
structure TripPackage where
  destination : String
  departure_date : Date
  return_date : Date
  flight : Option FlightDeal
  hotel : Option HotelDeal
  package_price : Option ℚ
  total_cash_cost : ℚ
  total_points_used : ℤ
  total_value : ℚ
  cost_per_person : ℚ
  cost_per_person_per_day : ℚ
  savings_vs_baseline : ℚ
  savings_pct : ℚ
  status : DealStatus
  deriving DecidableEq, Repr

/-- `TripPackage.calculate_totals` (`app/models.py`): sums component costs
(Python truthiness skips `None` and `0` prices but always adds taxes and
resort fees), then derives per-person metrics; dividing by a zero
`family_size` raises. -/
def TripPackage.calculate_totals (p : TripPackage) (family_size : ℤ) :
    Except PyErr TripPackage :=
  let start : ℚ × ℤ := (0, 0)
  let acc :=
    match p.flight with
    | none => start
    | some f =>
      let tcc :=
        match f.price_cash with
        | some c => if c ≠ 0 then start.1 + c else start.1
        | none => start.1
      let tpu :=
        match f.price_points with
        | some pts => if pts ≠ 0 then start.2 + pts * family_size else start.2
        | none => start.2
      (tcc + f.taxes_fees, tpu)
  let acc :=
    match p.hotel with
    | none => acc
    | some h =>
      let tcc :=
        match h.total_price_cash with
        | some c => if c ≠ 0 then acc.1 + c else acc.1
        | none => acc.1
      let tpu :=
        match h.total_price_points with
        | some pts => if pts ≠ 0 then acc.2 + pts else acc.2
        | none => acc.2
      (tcc + h.resort_fees, tpu)
  let num_days : ℤ := p.return_date.toDays - p.departure_date.toDays
  if (family_size : ℚ) = 0 then Except.error .zeroDivisionError
  else
    let cpp := acc.1 / (family_size : ℚ)
    let cpppd := if num_days > 0 then cpp / (num_days : ℚ) else 0
    pure { p with
      total_cash_cost := acc.1,
      total_points_used := acc.2,
      cost_per_person := cpp,
      cost_per_person_per_day := cpppd }

/-- `ValueCalculator.evaluate_trip_package`: recompute totals, derive the
package status from the component statuses via the source's if-chain
(`POOR` dominates, then `ACCEPTABLE`, `GOOD`, `EXCELLENT`; any other
combination — in particular `EXPIRED` components — leaves the prior status
in place), then the optional baseline savings.  The generated
recommendation/booking-step strings are presentation-only and untouched by
any claim. -/
def componentStatuses (package : TripPackage) : List DealStatus :=
  (match package.flight with
   | some f => [f.status]
   | none => []) ++
  (match package.hotel with
   | some h => [h.status]
   | none => [])

/-- The status if-chain of `evaluate_trip_package`: `POOR` dominates, then
`ACCEPTABLE`, `GOOD`, `EXCELLENT`; any other list of component statuses
(in particular one containing only `EXPIRED`) leaves the status alone. -/
def applyStatusChain (package : TripPackage) (statuses : List DealStatus) : TripPackage :=
  if DealStatus.POOR ∈ statuses then { package with status := .POOR }
  else if DealStatus.ACCEPTABLE ∈ statuses then { package with status := .ACCEPTABLE }
  else if DealStatus.GOOD ∈ statuses then { package with status := .GOOD }
  else if DealStatus.EXCELLENT ∈ statuses then { package with status := .EXCELLENT }
  else package

def evaluate_trip_package (config : ValueConfig) (package : TripPackage)
    (baseline_total : Option ℚ) : Except PyErr TripPackage :=
  match package.calculate_totals config.family_size with
  | Except.error e => Except.error e
  | Except.ok package =>
    let package := applyStatusChain package (componentStatuses package)
    let package :=
      match baseline_total with
      | some b =>
        if b ≠ 0 then
          { package with
            savings_vs_baseline := b - package.total_cash_cost,
            savings_pct := (b - package.total_cash_cost) / b * 100 }
        else package
      | none => package
    pure package

/-- The `status_order` dict of `ValueCalculator.compare_options`; all five
statuses are present, so the `.get(..., 5)` default is unreachable. -/
def statusOrder : DealStatus → ℤ
  | .EXCELLENT => 0
  | .GOOD => 1
  | .ACCEPTABLE => 2
  | .POOR => 3
  | .EXPIRED => 4

/-- The sort key `(status_order[status], -savings_pct if savings_pct else 0)`
of `compare_options` (Python truthiness: a zero savings percentage yields
the literal key `0`). -/
def package_sort_key (p : TripPackage) : ℤ × ℚ :=
  (statusOrder p.status, if p.savings_pct ≠ 0 then -p.savings_pct else 0)

/-- Lexicographic comparison of the sort keys, the order used by the
source's `evaluated.sort(key=...)`. -/
def packageLe (p q : TripPackage) : Prop :=
  (package_sort_key p).1 < (package_sort_key q).1 ∨
    ((package_sort_key p).1 = (package_sort_key q).1 ∧
      (package_sort_key p).2 ≤ (package_sort_key q).2)

instance : DecidableRel packageLe := fun p q => by
  unfold packageLe
  infer_instance

instance : IsTotal TripPackage packageLe where
  total p q := by
    unfold packageLe
    rcases lt_trichotomy (package_sort_key p).1 (package_sort_key q).1 with h | h | h
    · exact Or.inl (Or.inl h)
    · rcases le_total (package_sort_key p).2 (package_sort_key q).2 with h2 | h2
      · exact Or.inl (Or.inr ⟨h, h2⟩)
      · exact Or.inr (Or.inr ⟨h.symm, h2⟩)
    · exact Or.inr (Or.inl h)

instance : IsTrans TripPackage packageLe where
  trans p q s hpq hqs := by
    unfold packageLe at *
    rcases hpq with h1 | ⟨h1, h1b⟩ <;> rcases hqs with h2 | ⟨h2, h2b⟩
    · exact Or.inl (h1.trans h2)
    · exact Or.inl (h2 ▸ h1)
    · exact Or.inl (h1 ▸ h2)
    · exact Or.inr ⟨h1.trans h2, h1b.trans h2b⟩

/-- One entry of the `ranked_options` matrix built by `compare_options`
(presentation strings that repeat other fields are omitted). -/
structure RankedOption where
  rank : ℤ
  destination : String
  total_cost : ℚ
  points_used : ℤ
  status : String
  savings_pct : ℚ
  pros : List String
  cons : List String
  deriving DecidableEq, Repr

/-- The per-package entry built inside the loop of `compare_options`,
including the pros/cons predicates. -/
def mkRankedOption (config : ValueConfig) (i : ℕ) (pkg : TripPackage) : RankedOption :=
  { rank := (i : ℤ) + 1
    destination := pkg.destination
    total_cost := pkg.total_cash_cost
    points_used := pkg.total_points_used
    status := pkg.status.value
    savings_pct := pkg.savings_pct
    pros :=
      (if pkg.status = .EXCELLENT ∨ pkg.status = .GOOD then ["Strong value"] else []) ++
      (if pkg.total_cash_cost ≤ config.target_budget then ["Within budget"] else []) ++
      (match pkg.flight with
       | some f => if f.stops = 0 then ["Nonstop flights"] else []
       | none => []) ++
      (match pkg.hotel with
       | some h => if h.is_all_inclusive then ["All-inclusive (predictable costs)"] else []
       | none => [])
    cons :=
      (if pkg.total_cash_cost > config.max_budget then ["Over budget ceiling"] else []) ++
      (if pkg.status = .POOR then ["Below value threshold"] else []) ++
      (match pkg.flight with
       | some f => if f.stops > 1 then ["Multiple connections"] else []
       | none => []) }

/-- Python `min(xs, key=total_cash_cost)`: first element with minimal cost. -/
def minByCost (l : List TripPackage) : Option TripPackage :=
  match l with
  | [] => none
  | p :: ps =>
    some (ps.foldl (fun acc q => if q.total_cash_cost < acc.total_cash_cost then q else acc) p)

/-- The decision matrix returned by `compare_options` (`best_experience` is
never assigned in the source and stays `None`; omitted). -/
structure CompareMatrix where
  ranked_options : List RankedOption
  best_value : Option String
  lowest_cost : Option String
  deriving DecidableEq, Repr

/-- `ValueCalculator.compare_options`: evaluate every package, sort them
stably and ascending by `package_sort_key` (Python `list.sort` is stable;
`List.insertionSort` is the matching stable sort), build the ranked matrix
and the superlatives.  The empty-input case returns the `{"error": ...}`
dict, modelled as `none`. -/
def compare_options (config : ValueConfig) (packages : List TripPackage) :
    Except PyErr (Option CompareMatrix) :=
  if packages = [] then pure none
  else
    match packages.mapM (fun p => evaluate_trip_package config p none) with
    | Except.error e => Except.error e
    | Except.ok evaluated =>
      let evaluated := List.insertionSort packageLe evaluated
      let options := evaluated.enum.map (fun ia => mkRankedOption config ia.1 ia.2)
      pure (some
        { ranked_options := options
          best_value := evaluated.head?.map (fun p => p.destination)
          lowest_cost := (minByCost evaluated).map (fun p => p.destination) })

/-- Python `dict` assignment `m[k] = v` on an insertion-ordered map:
replace the (unique) existing binding in place, else append. -/
def dictSet {α : Type} : List (String × α) → String → α → List (String × α)
  | [], k, v => [(k, v)]
  | kv :: rest, k, v =>
    if kv.1 = k then (k, v) :: rest else kv :: dictSet rest k v

/-- A deal handed to the tracker (`FlightDeal`, `HotelDeal` or `TripPackage`). -/
inductive Deal where
  | flight (d : FlightDeal)
  | hotel (d : HotelDeal)
  | package (d : TripPackage)
  deriving DecidableEq, Repr

/-- `DealTracker._generate_deal_key`: the identity key derived from a deal.
The `unknown_...` fallback of the source is unreachable for these three
variants. -/
def _generate_deal_key (deal : Deal) : String :=
  match deal with
  | .flight d =>
    "flight_" ++ d.origin ++ "_" ++ d.destination ++ "_" ++ d.departure_date.iso ++
      "_" ++ d.airline ++ "_" ++ d.deal_type.value
  | .hotel d =>
    "hotel_" ++ d.property_name ++ "_" ++ d.check_in.iso ++ "_" ++ d.deal_type.value
  | .package d =>
    "package_" ++ d.destination ++ "_" ++ d.departure_date.iso

/-- `DealTracker._generate_route_key`. -/
def _generate_route_key (origin destination : String) (departure_date : Date) : String :=
  origin ++ "-" ++ destination ++ "-" ++ departure_date.ym

/-- A record stored under a deal key: the serialized deal plus the
`_updated_at` timestamp (`_key` is the map key itself). -/
structure StoredDeal where
  data : Deal
  updated_at : ℚ
  deriving DecidableEq, Repr

/-- One `{"timestamp": ..., "price": ...}` observation of a price series. -/
structure Observation where
  timestamp : ℚ
  price : ℚ
  deriving DecidableEq, Repr

/-- One value of the `price_history` map. -/
structure RouteHistory where
  route_key : String
  prices : List Observation
  deriving DecidableEq, Repr

/-- The in-memory state of `DealTracker` (the JSON files mirror these maps;
persistence is outside the claims). -/
structure DealTracker where
  deals : List (String × StoredDeal)
  price_history : List (String × RouteHistory)
  baselines : List (String × ℚ)
  deriving DecidableEq, Repr

/-- A tracker with no stored data. -/
def emptyTracker : DealTracker :=
  { deals := [], price_history := [], baselines := [] }

/-- Python `x[-n:]`: the most recent `n` elements of a list. -/
def lastN {α : Type} (n : ℕ) (l : List α) : List α :=
  l.drop (l.length - n)

/-- `DealTracker._update_price_history`: for a flight or hotel deal with a
positive cash price, append `(now, price)` to the series under the route
(or property) + month key and keep only the last 100 observations.
`price_cash if price_cash else 0` maps both `None` and `0` to `0`. -/
def _update_price_history (t : DealTracker) (deal : Deal) (now : ℚ) : DealTracker :=
  let entry : Option (String × ℚ) :=
    match deal with
    | .flight d =>
      some (_generate_route_key d.origin d.destination d.departure_date,
        match d.price_cash with
        | some c => if c ≠ 0 then c else 0
        | none => 0)
    | .hotel d =>
      some ("hotel-" ++ d.property_name ++ "-" ++ d.check_in.ym,
        match d.price_per_night_cash with
        | some c => if c ≠ 0 then c else 0
        | none => 0)
    | .package _ => none
  match entry with
  | none => t
  | some (key, price) =>
    if price ≤ 0 then t
    else
      let prior : RouteHistory :=
        match t.price_history.lookup key with
        | some h => h
        | none => { route_key := key, prices := [] }
      let updated : RouteHistory :=
        { prior with
          prices := lastN 100 (prior.prices ++ [{ timestamp := now, price := price }]) }
      { t with price_history := dictSet t.price_history key updated }

/-- `DealTracker.add_deal`: store (or overwrite) the deal under its derived
key, then update the price history.  The price-change log line has no state
effect and is not modelled. -/
def add_deal (t : DealTracker) (deal : Deal) (now : ℚ) : DealTracker × String :=
  let key := _generate_deal_key deal
  let t := { t with deals := dictSet t.deals key { data := deal, updated_at := now } }
  let t := _update_price_history t deal now
  (t, key)

/-- One value of the alert-history map (`app/alerts.py`). -/
structure AlertEntry where
  last_alert : Option ℚ
  alert_type : String
  count : ℤ
  deriving DecidableEq, Repr

/-- The state of `AlertSystem` read by the alert decision: the quiet-hours
window (seconds within the day) and the alert history.  Email transport
configuration has no effect on `should_alert` and is omitted. -/
structure AlertSystem where
  quiet_start : ℚ
  quiet_end : ℚ
  alert_history : List (String × AlertEntry)
  deriving DecidableEq, Repr

/-- Seconds within the day of an absolute timestamp, Python
`datetime.now().time()` as a number. -/
def timeOfDay (now : ℚ) : ℚ :=
  now - 86400 * (⌊now / 86400⌋ : ℚ)

/-- `AlertSystem._is_quiet_hours`, with an overnight window wrapping
through midnight when `quiet_start > quiet_end`. -/
def _is_quiet_hours (sys : AlertSystem) (now : ℚ) : Bool :=
  let t := timeOfDay now
  if sys.quiet_start > sys.quiet_end then
    decide (t ≥ sys.quiet_start ∨ t ≤ sys.quiet_end)
  else
    decide (sys.quiet_start ≤ t ∧ t ≤ sys.quiet_end)

/-- `AlertSystem._was_recently_alerted`: the stored last-alert timestamp is
less than `hours` hours old. -/
def _was_recently_alerted (sys : AlertSystem) (now : ℚ) (deal_key : String)
    (hours : ℚ) : Bool :=
  match sys.alert_history.lookup deal_key with
  | none => false
  | some entry =>
    match entry.last_alert with
    | none => false
    | some last_time => decide ((now - last_time) / 3600 < hours)

/-- `AlertSystem._record_alert`: store `(now, type, count + 1)` for the key. -/
def _record_alert (sys : AlertSystem) (now : ℚ) (deal_key : String)
    (alert_type : String) : AlertSystem :=
  let prev_count : ℤ :=
    match sys.alert_history.lookup deal_key with
    | some e => e.count
    | none => 0
  { sys with
    alert_history :=
      dictSet sys.alert_history deal_key
        { last_alert := some now, alert_type := alert_type, count := prev_count + 1 } }

/-- The fields of the deal dict read by `should_alert`; `_key` is present
for every deal stored by the tracker. -/
structure AlertDeal where
  key : String
  status : String
  deriving DecidableEq, Repr

/-- `AlertSystem.should_alert`: forced alerts always pass; otherwise the
status threshold, quiet hours and the 24-hour dedup window are checked in
order.  (Quote characters of the reason strings are elided.) -/
def should_alert (sys : AlertSystem) (now : ℚ) (deal : AlertDeal)
    (force : Bool) (ignore_quiet_hours : Bool) : Bool × String :=
  if force then (true, "Forced alert")
  else if deal.status ∉ (["excellent", "good"] : List String) then
    (false, "Deal status " ++ deal.status ++ " below alert threshold")
  else if ¬ignore_quiet_hours ∧ _is_quiet_hours sys now then
    (false, "Quiet hours - alert queued")
  else if _was_recently_alerted sys now deal.key 24 then
    (false, "Already alerted for this deal in last 24 hours")
  else
    (true, "Alert triggered for " ++ deal.status ++ " deal")

/-- Number of records stored under a key (a well-formed dict has at most
one). -/
def countKey {α : Type} (m : List (String × α)) (k : String) : ℕ :=
  (m.filter (fun kv => kv.1 == k)).length

theorem lookup_dictSet_self {α : Type} (m : List (String × α)) (k : String) (v : α) :
    (dictSet m k v).lookup k = some v := by
  induction m with
  | nil => simp [dictSet]
  | cons kv rest ih =>
    rcases kv with ⟨k1, v1⟩
    by_cases h : k1 = k
    · subst h
      simp [dictSet]
    · have hb : (k == k1) = false := beq_eq_false_iff_ne.mpr (Ne.symm h)
      simp [dictSet, h, List.lookup, hb, ih]

theorem countKey_dictSet {α : Type} (m : List (String × α)) (k : String) (v : α)
    (h : countKey m k ≤ 1) : countKey (dictSet m k v) k = 1 := by
  induction m with
  | nil => simp [countKey, dictSet]
  | cons kv rest ih =>
    rcases kv with ⟨k1, v1⟩
    by_cases hk : k1 = k
    · subst hk
      simp only [countKey, dictSet, if_pos rfl, List.filter] at h ⊢
      simp only [beq_self_eq_true, List.length_cons] at h ⊢
      omega
    · simp only [countKey, dictSet, if_neg hk, List.filter] at h ⊢
      have hb : (k1 == k) = false := beq_eq_false_iff_ne.mpr hk
      simp only [hb] at h ⊢
      exact ih h

theorem update_price_history_deals (t : DealTracker) (deal : Deal) (now : ℚ) :
    (_update_price_history t deal now).deals = t.deals := by
  unfold _update_price_history
  cases deal <;> simp only <;> split <;> rfl

/-- C1: the flight deal key is derived from (origin, destination,
departure date, airline, deal kind); submitting two flight offers that
agree on those fields leaves exactly one stored record under the shared
key, and that record is the second submission (so its stored price is the
second submission's price).  `hinv` is the map invariant: at most one
record per key. -/
theorem add_deal_dedup (t : DealTracker) (d1 d2 : FlightDeal) (now1 now2 : ℚ)
    (ho : d1.origin = d2.origin) (hd : d1.destination = d2.destination)
    (hdt : d1.departure_date = d2.departure_date)
    (ha : d1.airline = d2.airline) (hk : d1.deal_type = d2.deal_type)
    (hp : d1.price_cash ≠ d2.price_cash)
    (hinv : countKey t.deals (_generate_deal_key (Deal.flight d2)) ≤ 1) :
    countKey ((add_deal (add_deal t (Deal.flight d1) now1).1 (Deal.flight d2) now2).1).deals
        (_generate_deal_key (Deal.flight d2)) = 1 ∧
    ((add_deal (add_deal t (Deal.flight d1) now1).1 (Deal.flight d2) now2).1).deals.lookup
        (_generate_deal_key (Deal.flight d2)) =
      some { data := Deal.flight d2, updated_at := now2 } := by
  have hkey : _generate_deal_key (Deal.flight d1) = _generate_deal_key (Deal.flight d2) := by
    simp [_generate_deal_key, ho, hd, hdt, ha, hk]
  have h1 : (add_deal t (Deal.flight d1) now1).1.deals =
      dictSet t.deals (_generate_deal_key (Deal.flight d2))
        { data := Deal.flight d1, updated_at := now1 } := by
    simp [add_deal, update_price_history_deals, hkey]
  have h2 : (add_deal (add_deal t (Deal.flight d1) now1).1 (Deal.flight d2) now2).1.deals =
      dictSet ((add_deal t (Deal.flight d1) now1).1.deals)
        (_generate_deal_key (Deal.flight d2))
        { data := Deal.flight d2, updated_at := now2 } := by
    simp [add_deal, update_price_history_deals]
  rw [h2, h1]
  have hc1 : countKey
      (dictSet t.deals (_generate_deal_key (Deal.flight d2))
        { data := Deal.flight d1, updated_at := now1 })
      (_generate_deal_key (Deal.flight d2)) = 1 :=
    countKey_dictSet _ _ _ hinv
  exact ⟨countKey_dictSet _ _ _ (le_of_eq hc1), lookup_dictSet_self _ _ _⟩

/-- A concrete flight deal used by several witnesses. -/
def baseFlight : FlightDeal :=
  { origin := "MSP", destination := "CUN",
    departure_date := { year := 2026, month := 3, day := 27 },
    return_date := { year := 2026, month := 4, day := 3 },
    deal_type := .FLIGHT_CASH, price_cash := some 1600, price_points := none,
    points_currency := none, taxes_fees := 0, airline := "Delta",
    cabin_class := .ECONOMY, stops := 0, cpp_value := none, total_value := none,
    savings_vs_cash := none, status := .ACCEPTABLE, notes := "" }

/-- Witness for C1 at a concrete tracker and pair of submissions. -/
theorem add_deal_dedup_witness :
    countKey ((add_deal (add_deal emptyTracker (Deal.flight baseFlight) 1).1
        (Deal.flight { baseFlight with price_cash := some 1400 }) 2).1).deals
      (_generate_deal_key (Deal.flight { baseFlight with price_cash := some 1400 })) = 1 ∧
    ((add_deal (add_deal emptyTracker (Deal.flight baseFlight) 1).1
        (Deal.flight { baseFlight with price_cash := some 1400 }) 2).1).deals.lookup
      (_generate_deal_key (Deal.flight { baseFlight with price_cash := some 1400 })) =
      some { data := Deal.flight { baseFlight with price_cash := some 1400 }, updated_at := 2 } :=
  add_deal_dedup emptyTracker baseFlight { baseFlight with price_cash := some 1400 } 1 2
    rfl rfl rfl rfl rfl (by norm_num [baseFlight]) (by simp [countKey, emptyTracker])

/-- The stored observation series under a route key ([] when absent). -/
def seriesAt (t : DealTracker) (key : String) : List Observation :=
  match t.price_history.lookup key with
  | some h => h.prices
  | none => []

theorem lastN_snoc {α : Type} (n : ℕ) (l : List α) (x : α) :
    lastN n (lastN n l ++ [x]) = lastN n (l ++ [x]) := by
  unfold lastN
  rcases le_or_lt l.length n with h | h
  · rw [Nat.sub_eq_zero_of_le h, List.drop_zero]
  · have e1 : List.drop (l.length - n) l ++ [x] = List.drop (l.length - n) (l ++ [x]) :=
      (List.drop_append_of_le_length (by omega)).symm
    rw [e1, List.drop_drop]
    congr 1
    simp only [List.length_drop, List.length_append, List.length_cons, List.length_nil]
    omega

theorem seriesAt_add_deal_flight (t : DealTracker) (d : FlightDeal) (now p : ℚ)
    (hp : d.price_cash = some p) (hpos : 0 < p) :
    seriesAt (add_deal t (Deal.flight d) now).1
        (_generate_route_key d.origin d.destination d.departure_date) =
      lastN 100 (seriesAt t (_generate_route_key d.origin d.destination d.departure_date) ++
        [{ timestamp := now, price := p }]) := by
  have hne : p ≠ 0 := ne_of_gt hpos
  have hng : ¬p ≤ 0 := not_le.mpr hpos
  unfold seriesAt add_deal _update_price_history
  simp only [hp, if_pos hne, if_neg hng]
  rcases htl : t.price_history.lookup
      (_generate_route_key d.origin d.destination d.departure_date) with _ | h <;>
    simp [htl, lookup_dictSet_self]

theorem seriesAt_add_deal_hotel (t : DealTracker) (d : HotelDeal) (now p : ℚ)
    (hp : d.price_per_night_cash = some p) (hpos : 0 < p) :
    seriesAt (add_deal t (Deal.hotel d) now).1
        ("hotel-" ++ d.property_name ++ "-" ++ d.check_in.ym) =
      lastN 100 (seriesAt t ("hotel-" ++ d.property_name ++ "-" ++ d.check_in.ym) ++
        [{ timestamp := now, price := p }]) := by
  have hne : p ≠ 0 := ne_of_gt hpos
  have hng : ¬p ≤ 0 := not_le.mpr hpos
  unfold seriesAt add_deal _update_price_history
  simp only [hp, if_pos hne, if_neg hng]
  rcases htl : t.price_history.lookup
      ("hotel-" ++ d.property_name ++ "-" ++ d.check_in.ym) with _ | h <;>
    simp [htl, lookup_dictSet_self]

/-- 101 sequential puts of the same flight deal, with put number `n` done at
timestamp `n`. -/
def putSeq (d : FlightDeal) : ℕ → DealTracker
  | 0 => emptyTracker
  | n + 1 => (add_deal (putSeq d n) (Deal.flight d) (n : ℚ)).1

theorem putSeq_series (d : FlightDeal) (p : ℚ)
    (hp : d.price_cash = some p) (hpos : 0 < p) (n : ℕ) :
    seriesAt (putSeq d n) (_generate_route_key d.origin d.destination d.departure_date) =
      lastN 100 ((List.range n).map
        (fun (i : ℕ) => ({ timestamp := (i : ℚ), price := p } : Observation))) := by
  induction n with
  | zero => simp [putSeq, seriesAt, emptyTracker, lastN]
  | succ n ih =>
    rw [putSeq, seriesAt_add_deal_flight _ _ _ _ hp hpos, ih, lastN_snoc,
      List.range_succ, List.map_append]
    rfl

/-- C6: every put of a flight or hotel deal with a positive cash price
appends one `(timestamp, price)` observation to the series under its
route/property + month key, and the series is capped to the most recent 100
observations (oldest dropped first); after 101 sequential puts on the same
route the stored series has exactly 100 entries and excludes the earliest
observation. -/
theorem price_history_ring_buffer (t : DealTracker) (fd : FlightDeal) (hd : HotelDeal)
    (now p q : ℚ) (hfp : fd.price_cash = some p) (hppos : 0 < p)
    (hhp : hd.price_per_night_cash = some q) (hqpos : 0 < q) :
    (seriesAt (add_deal t (Deal.flight fd) now).1
        (_generate_route_key fd.origin fd.destination fd.departure_date) =
      lastN 100 (seriesAt t (_generate_route_key fd.origin fd.destination fd.departure_date) ++
        [{ timestamp := now, price := p }])) ∧
    (seriesAt (add_deal t (Deal.hotel hd) now).1
        ("hotel-" ++ hd.property_name ++ "-" ++ hd.check_in.ym) =
      lastN 100 (seriesAt t ("hotel-" ++ hd.property_name ++ "-" ++ hd.check_in.ym) ++
        [{ timestamp := now, price := q }])) ∧
    (seriesAt (putSeq fd 101)
        (_generate_route_key fd.origin fd.destination fd.departure_date)).length = 100 ∧
    ({ timestamp := 0, price := p } : Observation) ∉
      seriesAt (putSeq fd 101)
        (_generate_route_key fd.origin fd.destination fd.departure_date) := by
  refine ⟨seriesAt_add_deal_flight t fd now p hfp hppos,
          seriesAt_add_deal_hotel t hd now q hhp hqpos, ?_, ?_⟩
  · rw [putSeq_series fd p hfp hppos 101]
    simp [lastN, List.length_drop]
  · rw [putSeq_series fd p hfp hppos 101]
    have hlast : lastN 100 ((List.range 101).map
        (fun (i : ℕ) => ({ timestamp := (i : ℚ), price := p } : Observation))) =
        ((List.range 101).drop 1).map
          (fun (i : ℕ) => ({ timestamp := (i : ℚ), price := p } : Observation)) := by
      unfold lastN
      rw [List.length_map, List.length_range, List.map_drop]
    rw [hlast]
    intro hmem
    rcases List.mem_map.mp hmem with ⟨i, hi, hobs⟩
    have hi0 : i = 0 := by
      have hts := congrArg Observation.timestamp hobs
      simpa using hts
    subst hi0
    have hnot : (0 : ℕ) ∉ (List.range 101).drop 1 := by decide
    exact hnot hi

/-- A concrete hotel deal used by several witnesses (the all-inclusive
example of the spec: 5600 total, 7 nights). -/
def baseHotel : HotelDeal :=
  { destination := "CUN", property_name := "Hyatt Ziva Cancun",
    check_in := { year := 2026, month := 3, day := 27 },
    check_out := { year := 2026, month := 4, day := 3 },
    deal_type := .ALL_INCLUSIVE, price_per_night_cash := some 800,
    price_per_night_points := none, points_currency := none,
    total_price_cash := some 5600, total_price_points := none, resort_fees := 0,
    is_all_inclusive := true, cpp_value := none, per_person_per_night := none,
    status := .ACCEPTABLE, notes := "" }

/-- Witness for C6 at concrete deals. -/
theorem price_history_ring_buffer_witness :
    (seriesAt (add_deal emptyTracker (Deal.flight baseFlight) 5).1
        (_generate_route_key baseFlight.origin baseFlight.destination
          baseFlight.departure_date) =
      lastN 100 (seriesAt emptyTracker
        (_generate_route_key baseFlight.origin baseFlight.destination
          baseFlight.departure_date) ++
        [{ timestamp := 5, price := 1600 }])) ∧
    (seriesAt (add_deal emptyTracker (Deal.hotel baseHotel) 5).1
        ("hotel-" ++ baseHotel.property_name ++ "-" ++ baseHotel.check_in.ym) =
      lastN 100 (seriesAt emptyTracker
        ("hotel-" ++ baseHotel.property_name ++ "-" ++ baseHotel.check_in.ym) ++
        [{ timestamp := 5, price := 800 }])) ∧
    (seriesAt (putSeq baseFlight 101)
        (_generate_route_key baseFlight.origin baseFlight.destination
          baseFlight.departure_date)).length = 100 ∧
    ({ timestamp := 0, price := 1600 } : Observation) ∉
      seriesAt (putSeq baseFlight 101)
        (_generate_route_key baseFlight.origin baseFlight.destination
          baseFlight.departure_date) :=
  price_history_ring_buffer emptyTracker baseFlight baseHotel 5 1600 800
    rfl (by norm_num) rfl (by norm_num)

theorem should_alert_false_of_recent (sys : AlertSystem) (now : ℚ) (d : AlertDeal)
    (iq : Bool) (hrec : _was_recently_alerted sys now d.key 24 = true) :
    (should_alert sys now d false iq).1 = false := by
  unfold should_alert
  simp only [Bool.false_eq_true, if_false]
  split_ifs <;> rfl

/-- C5: `should_alert` with `force = true` returns `(true, ...)` regardless
of status, quiet hours and history; and after a successful send has been
recorded for a key, a second non-forced `should_alert` within 24 hours for
the same key returns `(false, ...)`. -/
theorem should_alert_throttle (sys : AlertSystem) (t0 now : ℚ) (key typ : String)
    (d : AlertDeal) (iq : Bool) :
    ((should_alert sys now d true iq).1 = true) ∧
    (d.key = key → now - t0 < 24 * 3600 →
      (should_alert (_record_alert sys t0 key typ) now d false iq).1 = false) := by
  constructor
  · simp [should_alert]
  · intro hk hlt
    apply should_alert_false_of_recent
    unfold _was_recently_alerted _record_alert
    rw [hk]
    simp only [lookup_dictSet_self]
    rw [decide_eq_true_eq, div_lt_iff₀ (by norm_num : (0:ℚ) < 3600)]
    linarith

/-- Witness for C5 at a concrete alert system, deal and pair of times. -/
theorem should_alert_throttle_witness :
    ((should_alert { quiet_start := 79200, quiet_end := 25200, alert_history := [] }
        2000 { key := "k1", status := "excellent" } true false).1 = true) ∧
    (({ key := "k1", status := "excellent" } : AlertDeal).key = "k1" →
      (2000 : ℚ) - 1000 < 24 * 3600 →
      (should_alert
        (_record_alert { quiet_start := 79200, quiet_end := 25200, alert_history := [] }
          1000 "k1" "excellent")
        2000 { key := "k1", status := "excellent" } false false).1 = false) :=
  should_alert_throttle { quiet_start := 79200, quiet_end := 25200, alert_history := [] }
    1000 2000 "k1" "excellent" { key := "k1", status := "excellent" } false

/-- The configuration used by the concrete examples (the fixture of
`tests/test_calculator.py`, with the source's default Diamond parameters). -/
def testConfig : ValueConfig :=
  { baseline_cpp := [("delta_skymiles", 6/5), ("amex_mr", 3/2), ("hilton", 1/2)]
    target_cpp := [("delta_skymiles", 3/2), ("amex_mr", 2), ("hilton", 3/5)]
    min_cpp := [("delta_skymiles", 1), ("amex_mr", 6/5), ("hilton", 2/5)]
    upgrade_probability := 2/5
    upgrade_value_multiplier := 3/2
    companion_cert_value := 800
    family_size := 4
    max_budget := 12000
    target_budget := 10000 }

/-- The status of an evaluation result (`none` when it raised). -/
def statusOfPkg (e : Except PyErr TripPackage) : Option DealStatus :=
  match e with
  | Except.ok p => some p.status
  | Except.error _ => none

/-- Rank of a tier in the spec's full order
EXCELLENT > GOOD > ACCEPTABLE > POOR > EXPIRED (larger = worse). -/
def specTierRank : DealStatus → ℕ
  | .EXCELLENT => 0
  | .GOOD => 1
  | .ACCEPTABLE => 2
  | .POOR => 3
  | .EXPIRED => 4

/-- Modelled from the claim's words: the minimum (worst) tier of a list of
statuses over the full five-tier order. -/
def specWorstTier (l : List DealStatus) : Option DealStatus :=
  match l with
  | [] => none
  | s :: rest =>
    some (rest.foldl (fun a b => if specTierRank a < specTierRank b then b else a) s)

/-- The worst tier over EXCELLENT > GOOD > ACCEPTABLE > POOR only, with
EXPIRED statuses ignored (`none` when nothing remains) — what the source's
if-chain computes. -/
def worstNonExpired (l : List DealStatus) : Option DealStatus :=
  match l.filter (fun s => s != DealStatus.EXPIRED) with
  | [] => none
  | s :: rest =>
    some (rest.foldl (fun a b => if specTierRank a < specTierRank b then b else a) s)

/-- The value of the status if-chain of `evaluate_trip_package` as a
function of the statuses list and the prior status. -/
def chainResult (statuses : List DealStatus) (dflt : DealStatus) : DealStatus :=
  if DealStatus.POOR ∈ statuses then .POOR
  else if DealStatus.ACCEPTABLE ∈ statuses then .ACCEPTABLE
  else if DealStatus.GOOD ∈ statuses then .GOOD
  else if DealStatus.EXCELLENT ∈ statuses then .EXCELLENT
  else dflt

theorem applyStatusChain_status (p : TripPackage) (l : List DealStatus) :
    (applyStatusChain p l).status = chainResult l p.status := by
  unfold applyStatusChain chainResult
  split_ifs <;> rfl

theorem chainResult_eq_worst (a b dflt : DealStatus) :
    chainResult [] dflt = (worstNonExpired []).getD dflt ∧
    chainResult [a] dflt = (worstNonExpired [a]).getD dflt ∧
    chainResult [a, b] dflt = (worstNonExpired [a, b]).getD dflt := by
  cases a <;> cases b <;> cases dflt <;> decide

theorem calculate_totals_preserves (p q : TripPackage) (fam : ℤ)
    (h : p.calculate_totals fam = Except.ok q) :
    q.flight = p.flight ∧ q.hotel = p.hotel ∧ q.status = p.status := by
  simp only [TripPackage.calculate_totals] at h
  split_ifs at h <;> (cases h <;> exact ⟨rfl, rfl, rfl⟩)

theorem chainResult_eq_worst_components (p : TripPackage) (dflt : DealStatus) :
    chainResult (componentStatuses p) dflt =
      (worstNonExpired (componentStatuses p)).getD dflt := by
  unfold componentStatuses
  rcases p.flight with _ | f <;> rcases p.hotel with _ | h
  · exact (chainResult_eq_worst .EXCELLENT .EXCELLENT dflt).1
  · simpa using (chainResult_eq_worst h.status h.status dflt).2.1
  · simpa using (chainResult_eq_worst f.status f.status dflt).2.1
  · simpa using (chainResult_eq_worst f.status h.status dflt).2.2

theorem calculate_totals_ok (p : TripPackage) (fam : ℤ) (hf : (fam : ℚ) ≠ 0) :
    ∃ q, p.calculate_totals fam = Except.ok q := by
  simp only [TripPackage.calculate_totals]
  rw [if_neg hf]
  exact ⟨_, rfl⟩

theorem evaluate_trip_package_ok (config : ValueConfig) (p : TripPackage) (b : Option ℚ)
    (hf : (config.family_size : ℚ) ≠ 0) :
    ∃ r, evaluate_trip_package config p b = Except.ok r := by
  obtain ⟨q, hq⟩ := calculate_totals_ok p config.family_size hf
  unfold evaluate_trip_package
  rw [hq]
  exact ⟨_, rfl⟩

theorem evaluate_status_eq (config : ValueConfig) (p r : TripPackage) (baseline : Option ℚ)
    (h : evaluate_trip_package config p baseline = Except.ok r) :
    r.status = (worstNonExpired (componentStatuses p)).getD p.status := by
  unfold evaluate_trip_package at h
  rcases hct : p.calculate_totals config.family_size with e | p1 <;> rw [hct] at h
  · cases h
  · obtain ⟨hf, hh, hs⟩ := calculate_totals_preserves p p1 config.family_size hct
    have hcs : componentStatuses p1 = componentStatuses p := by
      unfold componentStatuses
      rw [hf, hh]
    have hres : r.status = (applyStatusChain p1 (componentStatuses p1)).status := by
      rcases baseline with _ | b
      · cases h
        rfl
      · simp only [] at h
        cases h
        split_ifs <;> rfl
    rw [hres, applyStatusChain_status, hcs, hs]
    exact chainResult_eq_worst_components p p.status

/-- The C3 counterexample package: an EXPIRED flight with a GOOD hotel. -/
def c3Package : TripPackage :=
  { destination := "CUN",
    departure_date := { year := 2026, month := 3, day := 27 },
    return_date := { year := 2026, month := 4, day := 3 },
    flight := some { baseFlight with status := .EXPIRED },
    hotel := some { baseHotel with status := .GOOD },
    package_price := none, total_cash_cost := 0, total_points_used := 0,
    total_value := 0, cost_per_person := 0, cost_per_person_per_day := 0,
    savings_vs_baseline := 0, savings_pct := 0, status := .ACCEPTABLE }

/-- C3 counterexample: on a package with an EXPIRED flight and a GOOD
hotel, evaluation yields status GOOD, while the minimum over the claim's
full tier order EXCELLENT > GOOD > ACCEPTABLE > POOR > EXPIRED is EXPIRED
— the code's chain never assigns EXPIRED. -/
theorem trip_status_not_full_minimum :
    (∃ r, evaluate_trip_package testConfig c3Package none = Except.ok r ∧
        r.status = DealStatus.GOOD) ∧
    specWorstTier (componentStatuses c3Package) = some DealStatus.EXPIRED ∧
    DealStatus.GOOD ≠ DealStatus.EXPIRED := by
  refine ⟨?_, by decide, by decide⟩
  obtain ⟨r, hr⟩ :=
    evaluate_trip_package_ok testConfig c3Package none (by norm_num [testConfig])
  refine ⟨r, hr, ?_⟩
  rw [evaluate_status_eq testConfig c3Package r none hr]
  decide

/-- The concrete package of the claim's example: EXCELLENT flight, POOR
hotel. -/
def c3bPackage : TripPackage :=
  { c3Package with
    flight := some { baseFlight with status := .EXCELLENT },
    hotel := some { baseHotel with status := .POOR } }

/-- C3 (amended): evaluating a trip package sets its status to the worst
component status over the four-tier order EXCELLENT > GOOD > ACCEPTABLE >
POOR, with EXPIRED components not participating (when no present component
has one of those four tiers the prior status is kept); in particular a
package with an EXCELLENT flight and a POOR hotel evaluates to POOR. -/
theorem evaluate_trip_package_worst_tier (config : ValueConfig) (p r : TripPackage)
    (baseline : Option ℚ) (h : evaluate_trip_package config p baseline = Except.ok r) :
    r.status = (worstNonExpired (componentStatuses p)).getD p.status ∧
    (∃ r2, evaluate_trip_package testConfig c3bPackage none = Except.ok r2 ∧
        r2.status = DealStatus.POOR) := by
  refine ⟨evaluate_status_eq config p r baseline h, ?_⟩
  obtain ⟨r2, hr2⟩ :=
    evaluate_trip_package_ok testConfig c3bPackage none (by norm_num [testConfig])
  refine ⟨r2, hr2, ?_⟩
  rw [evaluate_status_eq testConfig c3bPackage r2 none hr2]
  decide

/-- Witness for C3 (amended) at a concrete package. -/
theorem evaluate_trip_package_worst_tier_witness :
    (∃ r, evaluate_trip_package testConfig c3Package none = Except.ok r) ∧
    (∀ r, evaluate_trip_package testConfig c3Package none = Except.ok r →
      r.status = (worstNonExpired (componentStatuses c3Package)).getD c3Package.status) := by
  obtain ⟨r, hr⟩ :=
    evaluate_trip_package_ok testConfig c3Package none (by norm_num [testConfig])
  exact ⟨⟨r, hr⟩, fun r2 hr2 =>
    (evaluate_trip_package_worst_tier testConfig c3Package r2 none hr2).1⟩

theorem package_sort_key_eq (p : TripPackage) :
    package_sort_key p = (statusOrder p.status, -p.savings_pct) := by
  unfold package_sort_key
  by_cases h : p.savings_pct ≠ 0
  · rw [if_pos h]
  · rw [if_neg h]
    push_neg at h
    rw [h, neg_zero]

/-- The claim-side quality-tier rank of a ranked option's status string. -/
def statusRankStr (s : String) : ℤ :=
  if s = "excellent" then 0
  else if s = "good" then 1
  else if s = "acceptable" then 2
  else if s = "poor" then 3
  else if s = "expired" then 4
  else 5

theorem statusRankStr_value (s : DealStatus) : statusRankStr s.value = statusOrder s := by
  cases s <;> rfl

/-- Ascending order on ranked options by
`(quality-tier rank, minus savings_pct)`, as the claim states it. -/
def entryKeyLe (a b : RankedOption) : Prop :=
  statusRankStr a.status < statusRankStr b.status ∨
    (statusRankStr a.status = statusRankStr b.status ∧ -a.savings_pct ≤ -b.savings_pct)

theorem pairwise_enumFrom {α : Type} {R : α → α → Prop} (l : List α) :
    ∀ n : ℕ, l.Pairwise R → (l.enumFrom n).Pairwise (fun x y => R x.2 y.2) := by
  induction l with
  | nil => intro n _; exact List.Pairwise.nil
  | cons a l ih =>
    intro n h
    rcases List.pairwise_cons.mp h with ⟨ha, hl⟩
    refine List.pairwise_cons.mpr ⟨?_, ih (n + 1) hl⟩
    rintro ⟨i, x⟩ hy
    obtain ⟨h1, h2, h3⟩ := List.mem_enumFrom hy
    rw [h3]
    exact ha _ (List.getElem_mem _)

theorem packageLe_entryKeyLe (config : ValueConfig) (i j : ℕ) (p q : TripPackage)
    (h : packageLe p q) :
    entryKeyLe (mkRankedOption config i p) (mkRankedOption config j q) := by
  unfold packageLe at h
  rw [package_sort_key_eq, package_sort_key_eq] at h
  unfold entryKeyLe mkRankedOption
  simp only [statusRankStr_value]
  exact h

/-- The ranked options of a successful comparison are pairwise ordered by
`(quality-tier rank, minus savings_pct)`. -/
theorem compare_ranked_sorted (config : ValueConfig) (packages : List TripPackage)
    (m : CompareMatrix) (h : compare_options config packages = Except.ok (some m)) :
    m.ranked_options.Pairwise entryKeyLe := by
  unfold compare_options at h
  split_ifs at h with hemp
  · cases h
  · rcases hmm : packages.mapM (fun p => evaluate_trip_package config p none) with e | evaluated <;>
      rw [hmm] at h
    · cases h
    · cases h
      have hsorted : (List.insertionSort packageLe evaluated).Pairwise packageLe :=
        List.sorted_insertionSort packageLe evaluated
      have henum := pairwise_enumFrom (List.insertionSort packageLe evaluated) 0 hsorted
      refine List.Pairwise.map _ ?_ henum
      rintro ⟨i, p⟩ ⟨j, q⟩ hpq
      exact packageLe_entryKeyLe config i j p q hpq

/-- Flight used by the C4 ranking example: only status and price vary. -/
def c4Flight (st : DealStatus) (price : ℚ) : FlightDeal :=
  { baseFlight with status := st, price_cash := some price }

/-- Package used by the C4 ranking example. -/
def c4Package (dest : String) (st : DealStatus) (price sav : ℚ) : TripPackage :=
  { destination := dest,
    departure_date := { year := 2026, month := 3, day := 27 },
    return_date := { year := 2026, month := 4, day := 3 },
    flight := some (c4Flight st price), hotel := none, package_price := none,
    total_cash_cost := 0, total_points_used := 0, total_value := 0,
    cost_per_person := 0, cost_per_person_per_day := 0,
    savings_vs_baseline := 0, savings_pct := sav, status := .ACCEPTABLE }

def c4A : TripPackage := c4Package "A" .GOOD 3000 10

def c4B : TripPackage := c4Package "B" .EXCELLENT 2000 5

def c4C : TripPackage := c4Package "C" .GOOD 1000 20

theorem c4_days :
    ({ year := 2026, month := 4, day := 3 } : Date).toDays -
      ({ year := 2026, month := 3, day := 27 } : Date).toDays = 7 := by decide

theorem eval_c4A :
    evaluate_trip_package testConfig c4A none =
      Except.ok { c4A with total_cash_cost := 3000, cost_per_person := 750,
                           cost_per_person_per_day := 750/7, status := .GOOD } := by
  norm_num [evaluate_trip_package, TripPackage.calculate_totals, applyStatusChain,
    componentStatuses, c4A, c4Package, c4Flight, baseFlight, testConfig, c4_days,
    pure, Except.pure]
  simp

theorem eval_c4B :
    evaluate_trip_package testConfig c4B none =
      Except.ok { c4B with total_cash_cost := 2000, cost_per_person := 500,
                           cost_per_person_per_day := 500/7, status := .EXCELLENT } := by
  norm_num [evaluate_trip_package, TripPackage.calculate_totals, applyStatusChain,
    componentStatuses, c4B, c4Package, c4Flight, baseFlight, testConfig, c4_days,
    pure, Except.pure]
  simp

theorem eval_c4C :
    evaluate_trip_package testConfig c4C none =
      Except.ok { c4C with total_cash_cost := 1000, cost_per_person := 250,
                           cost_per_person_per_day := 250/7, status := .GOOD } := by
  norm_num [evaluate_trip_package, TripPackage.calculate_totals, applyStatusChain,
    componentStatuses, c4C, c4Package, c4Flight, baseFlight, testConfig, c4_days,
    pure, Except.pure]
  simp

/-- The evaluation of `c4A`. -/
def c4Ae : TripPackage :=
  { c4A with total_cash_cost := 3000, cost_per_person := 750,
             cost_per_person_per_day := 750/7, status := .GOOD }

/-- The evaluation of `c4B`. -/
def c4Be : TripPackage :=
  { c4B with total_cash_cost := 2000, cost_per_person := 500,
             cost_per_person_per_day := 500/7, status := .EXCELLENT }

/-- The evaluation of `c4C`. -/
def c4Ce : TripPackage :=
  { c4C with total_cash_cost := 1000, cost_per_person := 250,
             cost_per_person_per_day := 250/7, status := .GOOD }

/-- The decision matrix produced for the C4 example. -/
def c4Matrix : CompareMatrix :=
  { ranked_options :=
      [{ rank := 1, destination := "B", total_cost := 2000, points_used := 0,
         status := "excellent", savings_pct := 5,
         pros := ["Strong value", "Within budget", "Nonstop flights"], cons := [] },
       { rank := 2, destination := "C", total_cost := 1000, points_used := 0,
         status := "good", savings_pct := 20,
         pros := ["Strong value", "Within budget", "Nonstop flights"], cons := [] },
       { rank := 3, destination := "A", total_cost := 3000, points_used := 0,
         status := "good", savings_pct := 10,
         pros := ["Strong value", "Within budget", "Nonstop flights"], cons := [] }],
    best_value := some "B",
    lowest_cost := some "C" }

theorem c4_compare_eq :
    compare_options testConfig [c4A, c4B, c4C] = Except.ok (some c4Matrix) := by
  unfold compare_options
  rw [if_neg (by simp)]
  have hmm : [c4A, c4B, c4C].mapM (fun p => evaluate_trip_package testConfig p none) =
      Except.ok [c4Ae, c4Be, c4Ce] := by
    simp [List.mapM, List.mapM.loop, eval_c4A, eval_c4B, eval_c4C, c4Ae, c4Be, c4Ce,
      bind, Except.bind, pure, Except.pure]
  rw [hmm]
  have hsort : List.insertionSort packageLe [c4Ae, c4Be, c4Ce] = [c4Be, c4Ce, c4Ae] := by
    norm_num [List.insertionSort, List.orderedInsert, packageLe, package_sort_key,
      statusOrder, c4Ae, c4Be, c4Ce, c4A, c4B, c4C, c4Package]
  simp only [hsort]
  norm_num [mkRankedOption, minByCost, List.enum, List.enumFrom, DealStatus.value,
    c4Matrix, c4Ae, c4Be, c4Ce, c4A, c4B, c4C, c4Package, c4Flight, baseFlight, testConfig,
    pure, Except.pure]
  simp

/-- C4: ranked options are sorted ascending by (quality-tier rank, minus
savings_pct); a zero/missing savings figure yields the same key as
`savings_pct = 0` (`package_sort_key_eq`); on the example with tiers
[GOOD, EXCELLENT, GOOD] and savings [10, 5, 20] the ranked order is
[EXCELLENT/5, GOOD/20, GOOD/10], `best_value` is the rank-1 destination
and `lowest_cost` the minimum-total-cash-cost destination. -/
theorem compare_options_ranking (config : ValueConfig) (packages : List TripPackage)
    (m : CompareMatrix) (h : compare_options config packages = Except.ok (some m)) :
    m.ranked_options.Pairwise entryKeyLe ∧
    (∀ p : TripPackage, package_sort_key p = (statusOrder p.status, -p.savings_pct)) ∧
    compare_options testConfig [c4A, c4B, c4C] = Except.ok (some c4Matrix) ∧
    c4Matrix.ranked_options.map (fun o => (o.rank, o.destination, o.status, o.savings_pct)) =
      [(1, "B", "excellent", 5), (2, "C", "good", 20), (3, "A", "good", 10)] ∧
    c4Matrix.best_value = some "B" ∧ c4Matrix.lowest_cost = some "C" :=
  ⟨compare_ranked_sorted config packages m h, package_sort_key_eq,
   c4_compare_eq, rfl, rfl, rfl⟩

/-- Witness for C4 at the concrete three-package comparison. -/
theorem compare_options_ranking_witness :
    compare_options testConfig [c4A, c4B, c4C] = Except.ok (some c4Matrix) ∧
    c4Matrix.ranked_options.Pairwise entryKeyLe :=
  ⟨c4_compare_eq,
   (compare_options_ranking testConfig [c4A, c4B, c4C] c4Matrix c4_compare_eq).1⟩

theorem lookup_mem {α β : Type} [BEq α] (l : List (α × β)) (k : α) (b : β)
    (h : l.lookup k = some b) : b ∈ l.map Prod.snd := by
  induction l with
  | nil => cases h
  | cons kv rest ih =>
    simp only [List.lookup] at h
    rcases hbeq : k == kv.1 with _ | _ <;> rw [hbeq] at h
    · exact List.mem_cons_of_mem _ (ih h)
    · injection h with h
      rw [← h]
      exact List.mem_cons_self _ _

theorem estimate_pos (config : ValueConfig) (d : FlightDeal)
    (hfam : 0 < config.family_size) : 0 < _estimate_flight_cash_price config d := by
  simp only [_estimate_flight_cash_price]
  have hfq : (0 : ℚ) < (config.family_size : ℚ) := by exact_mod_cast hfam
  have hcab : 0 < cabin_multiplier d.cabin_class := by
    cases d.cabin_class <;> norm_num [cabin_multiplier]
  have hbase : 0 < (match mexico_caribbean_bases.lookup d.destination with
      | some b => b
      | none =>
        match europe_bases.lookup d.destination with
        | some b => b
        | none => 600) := by
    rcases hm : mexico_caribbean_bases.lookup d.destination with _ | b
    · rcases he : europe_bases.lookup d.destination with _ | b
      · norm_num
      · have hmem := lookup_mem _ _ _ he
        simp only [europe_bases, List.map, List.mem_cons, List.not_mem_nil, or_false] at hmem
        rcases hmem with h | h | h | h | h | h | h <;> rw [h] <;> norm_num
    · have hmem := lookup_mem _ _ _ hm
      simp only [mexico_caribbean_bases, List.map, List.mem_cons, List.not_mem_nil, or_false] at hmem
      rcases hmem with h | h | h | h | h | h <;> rw [h] <;> norm_num
  by_cases hs : d.stops = 0
  · rw [if_pos hs]
    have : (0:ℚ) < 6/5 := by norm_num
    exact mul_pos (mul_pos (mul_pos hbase hcab) this) hfq
  · rw [if_neg hs]
    exact mul_pos (mul_pos hbase hcab) hfq

theorem flight_status_cash_neg (config : ValueConfig) (d : FlightDeal) (c : ℚ)
    (hdt : d.deal_type = .FLIGHT_CASH) (hp : d.price_cash = some c) (hc : c < 0)
    (hfam : 0 < config.family_size) :
    _evaluate_flight_status config d = Except.ok DealStatus.EXCELLENT := by
  have hest := estimate_pos config d hfam
  have hdisc : (_estimate_flight_cash_price config d - c) /
      _estimate_flight_cash_price config d * 100 ≥ 30 := by
    rw [ge_iff_le, div_mul_eq_mul_div, le_div_iff₀ hest]
    nlinarith
  simp only [_evaluate_flight_status, hdt, hp]
  rw [if_neg (by simp)]
  rw [if_neg (ne_of_gt hest)]
  rw [if_pos hdisc]
  rfl

theorem evaluate_flight_cash_neg (config : ValueConfig) (d : FlightDeal) (c : ℚ)
    (hdt : d.deal_type = .FLIGHT_CASH) (hp : d.price_cash = some c) (hc : c < 0)
    (hfam : 0 < config.family_size) :
    ∃ r, evaluate_flight_deal config d none = Except.ok r ∧
      r.status = DealStatus.EXCELLENT ∧ r.total_value = some c := by
  by_cases hdelta : pyLower d.airline = "delta" ∧ d.cabin_class = .ECONOMY
  · have hst := flight_status_cash_neg config
      { d with
          total_value := some c, cpp_value := none,
          notes := d.notes ++ diamondNote
            (config.upgrade_probability * c * (config.upgrade_value_multiplier - 1)) }
      c (by simp [hdt]) (by simp [hp]) hc hfam
    refine ⟨{ d with
        total_value := some c, cpp_value := none,
        notes := d.notes ++ diamondNote
          (config.upgrade_probability * c * (config.upgrade_value_multiplier - 1)),
        status := DealStatus.EXCELLENT }, ?_, rfl, rfl⟩
    simp only [evaluate_flight_deal, hdt, hp, reduceIte, bind, Except.bind, pure, Except.pure]
    rw [if_pos hdelta]
    simp only [hdt, hp] at hst
    simp only [hst]
  · have hst := flight_status_cash_neg config
      { d with total_value := some c, cpp_value := none }
      c (by simp [hdt]) (by simp [hp]) hc hfam
    refine ⟨{ d with
        total_value := some c, cpp_value := none,
        status := DealStatus.EXCELLENT }, ?_, rfl, rfl⟩
    simp only [evaluate_flight_deal, hdt, hp, reduceIte, bind, Except.bind, pure, Except.pure]
    rw [if_neg hdelta]
    simp only [hdt, hp] at hst
    simp only [hst]

theorem flight_status_award_ok (config : ValueConfig) (d : FlightDeal) (v : ℚ)
    (hdt : d.deal_type = .FLIGHT_AWARD) (hcpp : d.cpp_value = some v) :
    ∃ st, _evaluate_flight_status config d = Except.ok st := by
  simp only [_evaluate_flight_status, hdt, hcpp, reduceIte]
  exact ⟨_, rfl⟩

theorem evaluate_flight_award_negpts (config : ValueConfig) (d : FlightDeal) (pts : ℤ)
    (hdt : d.deal_type = .FLIGHT_AWARD) (hpp : d.price_points = some pts)
    (hneg : pts < 0) (hfam : 0 < config.family_size) :
    ∃ r, evaluate_flight_deal config d none = Except.ok r ∧ r.cpp_value = some 0 := by
  have hple : pts * config.family_size ≤ 0 :=
    le_of_lt (mul_neg_of_neg_of_pos hneg hfam)
  have hcpp0 : calculate_cpp (_estimate_flight_cash_price config d)
      (pts * config.family_size) (d.taxes_fees * (config.family_size : ℚ)) = 0 := by
    unfold calculate_cpp
    rw [if_pos hple]
  by_cases hdelta : pyLower d.airline = "delta" ∧ d.cabin_class = .ECONOMY
  · obtain ⟨st, hst⟩ := flight_status_award_ok config
      { d with
        cpp_value := some 0,
        total_value := some (_estimate_flight_cash_price config d),
        savings_vs_cash := some (_estimate_flight_cash_price config d -
          d.taxes_fees * (config.family_size : ℚ)),
        notes := d.notes ++ diamondNote (config.upgrade_probability *
          _estimate_flight_cash_price config d * (config.upgrade_value_multiplier - 1)) }
      0 (by simp [hdt]) (by simp)
    refine ⟨{ d with
        cpp_value := some 0,
        total_value := some (_estimate_flight_cash_price config d),
        savings_vs_cash := some (_estimate_flight_cash_price config d -
          d.taxes_fees * (config.family_size : ℚ)),
        notes := d.notes ++ diamondNote (config.upgrade_probability *
          _estimate_flight_cash_price config d * (config.upgrade_value_multiplier - 1)),
        status := st }, ?_, rfl⟩
    simp only [evaluate_flight_deal, hdt, hpp, hcpp0, reduceIte, bind, Except.bind,
      pure, Except.pure]
    rw [if_neg (by simp : ¬(DealType.FLIGHT_AWARD = DealType.FLIGHT_CASH))]
    rw [if_pos hdelta]
    simp only [hdt, hpp] at hst
    simp only [hst]
  · obtain ⟨st, hst⟩ := flight_status_award_ok config
      { d with
        cpp_value := some 0,
        total_value := some (_estimate_flight_cash_price config d),
        savings_vs_cash := some (_estimate_flight_cash_price config d -
          d.taxes_fees * (config.family_size : ℚ)) }
      0 (by simp [hdt]) (by simp)
    refine ⟨{ d with
        cpp_value := some 0,
        total_value := some (_estimate_flight_cash_price config d),
        savings_vs_cash := some (_estimate_flight_cash_price config d -
          d.taxes_fees * (config.family_size : ℚ)),
        status := st }, ?_, rfl⟩
    simp only [evaluate_flight_deal, hdt, hpp, hcpp0, reduceIte, bind, Except.bind,
      pure, Except.pure]
    rw [if_neg (by simp : ¬(DealType.FLIGHT_AWARD = DealType.FLIGHT_CASH))]
    rw [if_neg hdelta]
    simp only [hdt, hpp] at hst
    simp only [hst]

/-- A cash flight submitted with a negative price. -/
def c7Deal : FlightDeal :=
  { baseFlight with price_cash := some (-100), airline := "United" }

/-- An award flight submitted with a negative points price. -/
def c7AwardDeal : FlightDeal :=
  { baseFlight with deal_type := .FLIGHT_AWARD, price_points := some (-20000),
                    airline := "United" }

/-- C7 counterexample: a flight deal with a negative cash price is evaluated
without any exception — no `InvalidOfferError` exists in the code — and it
even receives EXCELLENT status via a >100% discount. -/
theorem negative_price_no_error :
    (∃ r, evaluate_flight_deal testConfig c7Deal none = Except.ok r ∧
        r.status = DealStatus.EXCELLENT) ∧
    (∀ e : PyErr, evaluate_flight_deal testConfig c7Deal none ≠ Except.error e) := by
  obtain ⟨r, hr, hst, _⟩ := evaluate_flight_cash_neg testConfig c7Deal (-100)
    rfl rfl (by norm_num) (by norm_num [testConfig])
  refine ⟨⟨r, hr, hst⟩, ?_⟩
  intro e he
  rw [hr] at he
  cases he

/-- C7 (amended): negative cash or points prices are not rejected — there
is no validation and no `InvalidOfferError`; evaluation completes normally
on them: a negative-price cash flight gets status EXCELLENT (its discount
vs. the estimate exceeds 100%), and a negative-points award flight gets
`cpp_value = 0.0` from the `points <= 0` guard. -/
theorem negative_inputs_accepted (config : ValueConfig) (d : FlightDeal) (c : ℚ)
    (pts : ℤ) (hfam : 0 < config.family_size) :
    (d.deal_type = .FLIGHT_CASH → d.price_cash = some c → c < 0 →
      ∃ r, evaluate_flight_deal config d none = Except.ok r ∧
        r.status = DealStatus.EXCELLENT ∧ r.total_value = some c) ∧
    (d.deal_type = .FLIGHT_AWARD → d.price_points = some pts → pts < 0 →
      ∃ r, evaluate_flight_deal config d none = Except.ok r ∧ r.cpp_value = some 0) :=
  ⟨fun h1 h2 h3 => evaluate_flight_cash_neg config d c h1 h2 h3 hfam,
   fun h1 h2 h3 => evaluate_flight_award_negpts config d pts h1 h2 h3 hfam⟩

/-- Witness for C7 (amended) at concrete negative-price submissions. -/
theorem negative_inputs_accepted_witness :
    (∃ r, evaluate_flight_deal testConfig c7Deal none = Except.ok r ∧
        r.status = DealStatus.EXCELLENT ∧ r.total_value = some (-100)) ∧
    (∃ r, evaluate_flight_deal testConfig c7AwardDeal none = Except.ok r ∧
        r.cpp_value = some 0) :=
  ⟨(negative_inputs_accepted testConfig c7Deal (-100) 0
      (by norm_num [testConfig])).1 rfl rfl (by norm_num),
   (negative_inputs_accepted testConfig c7AwardDeal 0 (-20000)
      (by norm_num [testConfig])).2 rfl rfl (by norm_num)⟩

/-- `(check_out - check_in).days` of a hotel deal. -/
def hotelNights (d : HotelDeal) : ℤ :=
  d.check_out.toDays - d.check_in.toDays

/-- The per-person-per-night status bands of the all-inclusive branch. -/
def hotelBand (pppn : ℚ) : DealStatus :=
  if pppn ≤ 250 then .EXCELLENT
  else if pppn ≤ 350 then .GOOD
  else if pppn ≤ 450 then .ACCEPTABLE
  else .POOR

theorem evaluate_hotel_ai (config : ValueConfig) (d : HotelDeal) (T : ℚ)
    (hdt : d.deal_type = .HOTEL_CASH ∨ d.deal_type = .ALL_INCLUSIVE)
    (hai : d.is_all_inclusive = true)
    (hT : d.total_price_cash = some T) (hT0 : T ≠ 0)
    (hn : 0 < hotelNights d) (hfam : 0 < config.family_size) :
    ∃ r, evaluate_hotel_deal config d none = Except.ok r ∧
      r.per_person_per_night =
        some (T / ((hotelNights d : ℚ) * (config.family_size : ℚ))) ∧
      r.status = hotelBand (T / ((hotelNights d : ℚ) * (config.family_size : ℚ))) := by
  have hnq : (0 : ℚ) < (hotelNights d : ℚ) := by exact_mod_cast hn
  have hfq : (0 : ℚ) < (config.family_size : ℚ) := by exact_mod_cast hfam
  have hprod : ((d.check_out.toDays - d.check_in.toDays : ℤ) : ℚ) *
      (config.family_size : ℚ) ≠ 0 := by
    have : (0 : ℚ) < ((d.check_out.toDays - d.check_in.toDays : ℤ) : ℚ) *
        (config.family_size : ℚ) := mul_pos hnq hfq
    exact ne_of_gt this
  simp only [evaluate_hotel_deal]
  rw [if_pos hdt, if_pos hai]
  simp only [hT]
  rw [if_neg hT0]
  simp only [pure, Except.pure]
  rw [if_neg hprod]
  exact ⟨_, rfl, by simp [hotelNights], by simp [hotelBand, hotelNights]⟩

/-- A cash hotel deal whose `is_all_inclusive` flag is false. -/
def c9Deal : HotelDeal :=
  { baseHotel with deal_type := .HOTEL_CASH, is_all_inclusive := false,
                   status := .GOOD, total_price_cash := some 56000 }

/-- C9 counterexample: a cash hotel deal with positive nights but
`is_all_inclusive = false` is returned unchanged — `per_person_per_night`
stays `none` and the status stays GOOD, although the claim's bands would
give 56000/(7×4) = 2000 per person per night, i.e. POOR. -/
theorem hotel_cash_flag_gate :
    evaluate_hotel_deal testConfig c9Deal none = Except.ok c9Deal ∧
    c9Deal.per_person_per_night = none ∧
    c9Deal.status = DealStatus.GOOD ∧
    c9Deal.deal_type = DealType.HOTEL_CASH ∧
    0 < hotelNights c9Deal := by
  refine ⟨?_, rfl, rfl, rfl, by decide⟩
  have h1 : c9Deal.deal_type = DealType.HOTEL_CASH := rfl
  have h2 : ¬(c9Deal.is_all_inclusive = true) := by decide
  simp only [evaluate_hotel_deal]
  rw [if_pos (Or.inl h1), if_neg h2]
  rfl

/-- C9 (amended): for every hotel deal of kind HOTEL_CASH or ALL_INCLUSIVE
whose `is_all_inclusive` flag is set (the code checks the flag, not only
the kind), with a non-zero total cash price, positive nights and positive
family size, evaluation sets `per_person_per_night` to
`total / (nights × family_size)` and the status by the bands ≤250
EXCELLENT, ≤350 GOOD, ≤450 ACCEPTABLE, else POOR; in particular 5600 over
7 nights with family size 4 gives 200.0 and EXCELLENT. -/
theorem evaluate_hotel_bands (config : ValueConfig) (d : HotelDeal) (T : ℚ)
    (hdt : d.deal_type = .HOTEL_CASH ∨ d.deal_type = .ALL_INCLUSIVE)
    (hai : d.is_all_inclusive = true)
    (hT : d.total_price_cash = some T) (hT0 : T ≠ 0)
    (hn : 0 < hotelNights d) (hfam : 0 < config.family_size) :
    (∃ r, evaluate_hotel_deal config d none = Except.ok r ∧
      r.per_person_per_night =
        some (T / ((hotelNights d : ℚ) * (config.family_size : ℚ))) ∧
      r.status = hotelBand (T / ((hotelNights d : ℚ) * (config.family_size : ℚ)))) ∧
    (∃ r, evaluate_hotel_deal testConfig baseHotel none = Except.ok r ∧
      r.per_person_per_night = some 200 ∧ r.status = DealStatus.EXCELLENT) := by
  refine ⟨evaluate_hotel_ai config d T hdt hai hT hT0 hn hfam, ?_⟩
  obtain ⟨r, hr, hpppn, hst⟩ := evaluate_hotel_ai testConfig baseHotel 5600
    (Or.inr rfl) rfl rfl (by norm_num) (by decide) (by norm_num [testConfig])
  have hnights : hotelNights baseHotel = 7 := by decide
  have hval : (5600 : ℚ) / ((hotelNights baseHotel : ℚ) *
      ((testConfig.family_size : ℤ) : ℚ)) = 200 := by
    rw [hnights]
    norm_num [testConfig]
  refine ⟨r, hr, ?_, ?_⟩
  · rw [hpppn, hval]
  · rw [hst, hval]
    norm_num [hotelBand]

/-- Witness for C9 (amended) at the all-inclusive example deal. -/
theorem evaluate_hotel_bands_witness :
    ∃ r, evaluate_hotel_deal testConfig baseHotel none = Except.ok r ∧
      r.per_person_per_night =
        some (5600 / ((hotelNights baseHotel : ℚ) * (testConfig.family_size : ℚ))) ∧
      r.status = hotelBand (5600 / ((hotelNights baseHotel : ℚ) *
        (testConfig.family_size : ℚ))) :=
  (evaluate_hotel_bands testConfig baseHotel 5600 (Or.inr rfl) rfl rfl
    (by norm_num) (by decide) (by norm_num [testConfig])).1

theorem evaluate_hotel_ai_neg_nights (config : ValueConfig) (d : HotelDeal) (T : ℚ)
    (hdt : d.deal_type = .HOTEL_CASH ∨ d.deal_type = .ALL_INCLUSIVE)
    (hai : d.is_all_inclusive = true)
    (hT : d.total_price_cash = some T) (hT0 : T ≠ 0)
    (hn : hotelNights d < 0) (hfam : 0 < config.family_size) :
    ∃ r, evaluate_hotel_deal config d none = Except.ok r := by
  have hnq : ((d.check_out.toDays - d.check_in.toDays : ℤ) : ℚ) < 0 := by
    exact_mod_cast hn
  have hfq : (0 : ℚ) < (config.family_size : ℚ) := by exact_mod_cast hfam
  have hprod : ((d.check_out.toDays - d.check_in.toDays : ℤ) : ℚ) *
      (config.family_size : ℚ) ≠ 0 :=
    ne_of_lt (mul_neg_of_neg_of_pos hnq hfq)
  simp only [evaluate_hotel_deal]
  rw [if_pos hdt, if_pos hai]
  simp only [hT]
  rw [if_neg hT0]
  simp only [pure, Except.pure]
  rw [if_neg hprod]
  exact ⟨_, rfl⟩

theorem flight_status_cash_ok (config : ValueConfig) (d : FlightDeal) (c : ℚ)
    (hdt : d.deal_type = .FLIGHT_CASH) (hp : d.price_cash = some c)
    (hfam : 0 < config.family_size) :
    ∃ st, _evaluate_flight_status config d = Except.ok st := by
  have hest := estimate_pos config d hfam
  simp only [_evaluate_flight_status, hdt, hp]
  rw [if_neg (by simp)]
  rw [if_neg (ne_of_gt hest)]
  exact ⟨_, rfl⟩

theorem evaluate_flight_cash_ok (config : ValueConfig) (d : FlightDeal) (c : ℚ)
    (hdt : d.deal_type = .FLIGHT_CASH) (hp : d.price_cash = some c)
    (hfam : 0 < config.family_size) :
    ∃ r, evaluate_flight_deal config d none = Except.ok r := by
  by_cases hdelta : pyLower d.airline = "delta" ∧ d.cabin_class = .ECONOMY
  · obtain ⟨st, hst⟩ := flight_status_cash_ok config
      { d with
          total_value := some c, cpp_value := none,
          notes := d.notes ++ diamondNote
            (config.upgrade_probability * c * (config.upgrade_value_multiplier - 1)) }
      c (by simp [hdt]) (by simp [hp]) hfam
    refine ⟨{ d with
        total_value := some c, cpp_value := none,
        notes := d.notes ++ diamondNote
          (config.upgrade_probability * c * (config.upgrade_value_multiplier - 1)),
        status := st }, ?_⟩
    simp only [evaluate_flight_deal, hdt, hp, reduceIte, bind, Except.bind, pure, Except.pure]
    rw [if_pos hdelta]
    simp only [hdt, hp] at hst
    simp only [hst]
  · obtain ⟨st, hst⟩ := flight_status_cash_ok config
      { d with total_value := some c, cpp_value := none }
      c (by simp [hdt]) (by simp [hp]) hfam
    refine ⟨{ d with
        total_value := some c, cpp_value := none,
        status := st }, ?_⟩
    simp only [evaluate_flight_deal, hdt, hp, reduceIte, bind, Except.bind, pure, Except.pure]
    rw [if_neg hdelta]
    simp only [hdt, hp] at hst
    simp only [hst]

theorem flight_status_award_defaults (config : ValueConfig) (d : FlightDeal) (v : ℚ)
    (hdt : d.deal_type = .FLIGHT_AWARD) (hcpp : d.cpp_value = some v)
    (ht : config.target_cpp.lookup (orS d.points_currency "delta_skymiles") = none)
    (hm : config.min_cpp.lookup (orS d.points_currency "delta_skymiles") = none) :
    _evaluate_flight_status config d = Except.ok
      (if v ≥ 3/2 * (13/10) then DealStatus.EXCELLENT
       else if v ≥ 3/2 then DealStatus.GOOD
       else if v ≥ 1 then DealStatus.ACCEPTABLE
       else DealStatus.POOR) := by
  simp only [_evaluate_flight_status, hdt, hcpp, reduceIte, lookupD, ht, hm]
  rfl

theorem evaluate_flight_award_missing_currency (config : ValueConfig) (d : FlightDeal)
    (pts : ℤ) (hdt : d.deal_type = .FLIGHT_AWARD) (hpp : d.price_points = some pts)
    (ht : config.target_cpp.lookup (orS d.points_currency "delta_skymiles") = none)
    (hm : config.min_cpp.lookup (orS d.points_currency "delta_skymiles") = none) :
    ∃ r, evaluate_flight_deal config d none = Except.ok r ∧
      ∃ v, r.cpp_value = some v ∧
        r.status = (if v ≥ 3/2 * (13/10) then DealStatus.EXCELLENT
                    else if v ≥ 3/2 then DealStatus.GOOD
                    else if v ≥ 1 then DealStatus.ACCEPTABLE
                    else DealStatus.POOR) := by
  by_cases hdelta : pyLower d.airline = "delta" ∧ d.cabin_class = .ECONOMY
  · have hst := flight_status_award_defaults config
      { d with
        cpp_value := some (calculate_cpp (_estimate_flight_cash_price config d)
          (pts * config.family_size) (d.taxes_fees * (config.family_size : ℚ))),
        total_value := some (_estimate_flight_cash_price config d),
        savings_vs_cash := some (_estimate_flight_cash_price config d -
          d.taxes_fees * (config.family_size : ℚ)),
        notes := d.notes ++ diamondNote (config.upgrade_probability *
          _estimate_flight_cash_price config d * (config.upgrade_value_multiplier - 1)) }
      (calculate_cpp (_estimate_flight_cash_price config d)
        (pts * config.family_size) (d.taxes_fees * (config.family_size : ℚ)))
      (by simp [hdt]) (by simp) (by simpa using ht) (by simpa using hm)
    refine ⟨{ d with
        cpp_value := some (calculate_cpp (_estimate_flight_cash_price config d)
          (pts * config.family_size) (d.taxes_fees * (config.family_size : ℚ))),
        total_value := some (_estimate_flight_cash_price config d),
        savings_vs_cash := some (_estimate_flight_cash_price config d -
          d.taxes_fees * (config.family_size : ℚ)),
        notes := d.notes ++ diamondNote (config.upgrade_probability *
          _estimate_flight_cash_price config d * (config.upgrade_value_multiplier - 1)),
        status := (if calculate_cpp (_estimate_flight_cash_price config d)
            (pts * config.family_size) (d.taxes_fees * (config.family_size : ℚ)) ≥
              3/2 * (13/10) then DealStatus.EXCELLENT
          else if calculate_cpp (_estimate_flight_cash_price config d)
            (pts * config.family_size) (d.taxes_fees * (config.family_size : ℚ)) ≥
              3/2 then DealStatus.GOOD
          else if calculate_cpp (_estimate_flight_cash_price config d)
            (pts * config.family_size) (d.taxes_fees * (config.family_size : ℚ)) ≥
              1 then DealStatus.ACCEPTABLE
          else DealStatus.POOR) }, ?_, ⟨_, rfl, rfl⟩⟩
    simp only [evaluate_flight_deal, hdt, hpp, reduceIte, bind, Except.bind, pure, Except.pure]
    rw [if_neg (by simp : ¬(DealType.FLIGHT_AWARD = DealType.FLIGHT_CASH))]
    rw [if_pos hdelta]
    simp only [hdt, hpp] at hst
    simp only [hst]
  · have hst := flight_status_award_defaults config
      { d with
        cpp_value := some (calculate_cpp (_estimate_flight_cash_price config d)
          (pts * config.family_size) (d.taxes_fees * (config.family_size : ℚ))),
        total_value := some (_estimate_flight_cash_price config d),
        savings_vs_cash := some (_estimate_flight_cash_price config d -
          d.taxes_fees * (config.family_size : ℚ)) }
      (calculate_cpp (_estimate_flight_cash_price config d)
        (pts * config.family_size) (d.taxes_fees * (config.family_size : ℚ)))
      (by simp [hdt]) (by simp) (by simpa using ht) (by simpa using hm)
    refine ⟨{ d with
        cpp_value := some (calculate_cpp (_estimate_flight_cash_price config d)
          (pts * config.family_size) (d.taxes_fees * (config.family_size : ℚ))),
        total_value := some (_estimate_flight_cash_price config d),
        savings_vs_cash := some (_estimate_flight_cash_price config d -
          d.taxes_fees * (config.family_size : ℚ)),
        status := (if calculate_cpp (_estimate_flight_cash_price config d)
            (pts * config.family_size) (d.taxes_fees * (config.family_size : ℚ)) ≥
              3/2 * (13/10) then DealStatus.EXCELLENT
          else if calculate_cpp (_estimate_flight_cash_price config d)
            (pts * config.family_size) (d.taxes_fees * (config.family_size : ℚ)) ≥
              3/2 then DealStatus.GOOD
          else if calculate_cpp (_estimate_flight_cash_price config d)
            (pts * config.family_size) (d.taxes_fees * (config.family_size : ℚ)) ≥
              1 then DealStatus.ACCEPTABLE
          else DealStatus.POOR) }, ?_, ⟨_, rfl, rfl⟩⟩
    simp only [evaluate_flight_deal, hdt, hpp, reduceIte, bind, Except.bind, pure, Except.pure]
    rw [if_neg (by simp : ¬(DealType.FLIGHT_AWARD = DealType.FLIGHT_CASH))]
    rw [if_neg hdelta]
    simp only [hdt, hpp] at hst
    simp only [hst]

/-- The all-inclusive example deal with a zero-night stay
(`check_out = check_in`). -/
def c8Deal : HotelDeal :=
  { baseHotel with check_out := { year := 2026, month := 3, day := 27 } }

/-- C8 counterexample: an all-inclusive hotel deal with zero nights makes
`evaluate_hotel_deal` raise `ZeroDivisionError` instead of completing. -/
theorem zero_nights_raises :
    evaluate_hotel_deal testConfig c8Deal none = Except.error PyErr.zeroDivisionError ∧
    hotelNights c8Deal = 0 := by
  refine ⟨?_, by decide⟩
  have h1 : c8Deal.deal_type = .HOTEL_CASH ∨ c8Deal.deal_type = .ALL_INCLUSIVE := Or.inr rfl
  have h2 : c8Deal.is_all_inclusive = true := rfl
  have h3 : c8Deal.total_price_cash = some 5600 := rfl
  have hz : ((c8Deal.check_out.toDays - c8Deal.check_in.toDays : ℤ) : ℚ) *
      (testConfig.family_size : ℚ) = 0 := by
    have h0 : (c8Deal.check_out.toDays - c8Deal.check_in.toDays : ℤ) = 0 := by decide
    rw [h0]
    norm_num
  simp only [evaluate_hotel_deal]
  rw [if_pos h1, if_pos h2]
  simp only [h3]
  rw [if_neg (by norm_num : (5600 : ℚ) ≠ 0)]
  simp only [pure, Except.pure]
  rw [if_pos hz]

/-- C8 (amended): negative nights, a zero points price on a cash offer, and
a points currency missing from the configured tables never raise —
evaluation completes and missing currencies fall back to the default
thresholds (min 1.0, target 1.5); a ZERO-night stay, however, raises
`ZeroDivisionError` in `evaluate_hotel_deal` for a cash/all-inclusive
hotel. -/
theorem degenerate_inputs (config : ValueConfig) (dh : HotelDeal) (df da : FlightDeal)
    (T c : ℚ) (pts : ℤ) (hfam : 0 < config.family_size) :
    (dh.deal_type = .HOTEL_CASH ∨ dh.deal_type = .ALL_INCLUSIVE →
      dh.is_all_inclusive = true → dh.total_price_cash = some T → T ≠ 0 →
      hotelNights dh < 0 →
      ∃ r, evaluate_hotel_deal config dh none = Except.ok r) ∧
    (df.deal_type = .FLIGHT_CASH → df.price_cash = some c → df.price_points = some 0 →
      ∃ r, evaluate_flight_deal config df none = Except.ok r) ∧
    (da.deal_type = .FLIGHT_AWARD → da.price_points = some pts →
      config.target_cpp.lookup (orS da.points_currency "delta_skymiles") = none →
      config.min_cpp.lookup (orS da.points_currency "delta_skymiles") = none →
      ∃ r, evaluate_flight_deal config da none = Except.ok r ∧
        ∃ v, r.cpp_value = some v ∧
          r.status = (if v ≥ 3/2 * (13/10) then DealStatus.EXCELLENT
                      else if v ≥ 3/2 then DealStatus.GOOD
                      else if v ≥ 1 then DealStatus.ACCEPTABLE
                      else DealStatus.POOR)) ∧
    evaluate_hotel_deal testConfig c8Deal none = Except.error PyErr.zeroDivisionError :=
  ⟨fun h1 h2 h3 h4 h5 => evaluate_hotel_ai_neg_nights config dh T h1 h2 h3 h4 h5 hfam,
   fun h1 h2 _ => evaluate_flight_cash_ok config df c h1 h2 hfam,
   fun h1 h2 h3 h4 => evaluate_flight_award_missing_currency config da pts h1 h2 h3 h4,
   zero_nights_raises.1⟩

/-- The all-inclusive example deal with negative nights. -/
def c8NegDeal : HotelDeal :=
  { baseHotel with check_out := { year := 2026, month := 3, day := 20 } }

/-- A cash flight with a zero points price. -/
def c8CashDeal : FlightDeal :=
  { baseFlight with price_points := some 0 }

/-- An award flight priced in a currency absent from the configured tables. -/
def c8AwardDeal : FlightDeal :=
  { baseFlight with deal_type := .FLIGHT_AWARD, price_points := some 25000,
                    points_currency := some "mystery_points" }

/-- Witness for C8 (amended) at concrete degenerate inputs. -/
theorem degenerate_inputs_witness :
    (∃ r, evaluate_hotel_deal testConfig c8NegDeal none = Except.ok r) ∧
    (∃ r, evaluate_flight_deal testConfig c8CashDeal none = Except.ok r) ∧
    (∃ r, evaluate_flight_deal testConfig c8AwardDeal none = Except.ok r ∧
      ∃ v, r.cpp_value = some v ∧
        r.status = (if v ≥ 3/2 * (13/10) then DealStatus.EXCELLENT
                    else if v ≥ 3/2 then DealStatus.GOOD
                    else if v ≥ 1 then DealStatus.ACCEPTABLE
                    else DealStatus.POOR)) := by
  have H := degenerate_inputs testConfig c8NegDeal c8CashDeal c8AwardDeal
    5600 1600 25000 (by norm_num [testConfig])
  exact ⟨H.1 (Or.inr rfl) rfl rfl (by norm_num) (by decide),
         H.2.1 rfl rfl rfl,
         H.2.2.1 rfl rfl rfl rfl⟩

/-- The discount-band status a cash flight receives (the else-branch of
`_evaluate_flight_status`); it reads only route/cabin/stops/price. -/
def flightCashBand (config : ValueConfig) (d : FlightDeal) (c : ℚ) : DealStatus :=
  if (_estimate_flight_cash_price config d - c) /
      _estimate_flight_cash_price config d * 100 ≥ 30 then .EXCELLENT
  else if (_estimate_flight_cash_price config d - c) /
      _estimate_flight_cash_price config d * 100 ≥ 20 then .GOOD
  else if (_estimate_flight_cash_price config d - c) /
      _estimate_flight_cash_price config d * 100 ≥ 0 then .ACCEPTABLE
  else .POOR

theorem flight_status_cash_eq (config : ValueConfig) (d : FlightDeal) (c : ℚ)
    (hdt : d.deal_type = .FLIGHT_CASH) (hp : d.price_cash = some c)
    (hfam : 0 < config.family_size) :
    _evaluate_flight_status config d = Except.ok (flightCashBand config d c) := by
  have hest := estimate_pos config d hfam
  simp only [_evaluate_flight_status, hdt, hp, flightCashBand]
  rw [if_neg (by simp), if_neg (ne_of_gt hest)]
  rfl

theorem evaluate_flight_cash_delta_eq (config : ValueConfig) (d : FlightDeal) (c : ℚ)
    (hdt : d.deal_type = .FLIGHT_CASH) (hp : d.price_cash = some c)
    (hdelta : pyLower d.airline = "delta" ∧ d.cabin_class = .ECONOMY)
    (hfam : 0 < config.family_size) :
    evaluate_flight_deal config d none = Except.ok
      { d with
        total_value := some c, cpp_value := none,
        notes := d.notes ++ diamondNote
          (config.upgrade_probability * c * (config.upgrade_value_multiplier - 1)),
        status := flightCashBand config d c } := by
  have hst := flight_status_cash_eq config
    { d with
        total_value := some c, cpp_value := none,
        notes := d.notes ++ diamondNote
          (config.upgrade_probability * c * (config.upgrade_value_multiplier - 1)) }
    c (by simp [hdt]) (by simp [hp]) hfam
  simp only [evaluate_flight_deal, hdt, hp, reduceIte, bind, Except.bind, pure, Except.pure]
  rw [if_pos hdelta]
  simp only [hdt, hp] at hst
  simp only [hst]
  rfl

/-- C10: for a Delta economy flight deal (cash kind, price present so the
evaluation completes), each call to `evaluate_flight_deal` appends one more
Diamond-upgrade note to `notes`: evaluating twice accumulates the note text
and is not idempotent on `notes`, while status and the value metrics are
recomputed to identical values. -/
theorem delta_note_accumulates (config : ValueConfig) (d : FlightDeal) (c : ℚ)
    (hdt : d.deal_type = .FLIGHT_CASH) (hp : d.price_cash = some c)
    (hair : pyLower d.airline = "delta") (hcab : d.cabin_class = .ECONOMY)
    (hfam : 0 < config.family_size) :
    ∃ r1 r2,
      evaluate_flight_deal config d none = Except.ok r1 ∧
      evaluate_flight_deal config r1 none = Except.ok r2 ∧
      r1.notes = d.notes ++ diamondNote
        (config.upgrade_probability * c * (config.upgrade_value_multiplier - 1)) ∧
      r2.notes = d.notes ++ diamondNote
        (config.upgrade_probability * c * (config.upgrade_value_multiplier - 1)) ++
        diamondNote
          (config.upgrade_probability * c * (config.upgrade_value_multiplier - 1)) ∧
      r2.notes ≠ r1.notes ∧
      r2.status = r1.status ∧ r2.total_value = r1.total_value ∧
      r2.cpp_value = r1.cpp_value := by
  have e1 := evaluate_flight_cash_delta_eq config d c hdt hp ⟨hair, hcab⟩ hfam
  have e2 := evaluate_flight_cash_delta_eq config
    { d with
        total_value := some c, cpp_value := none,
        notes := d.notes ++ diamondNote
          (config.upgrade_probability * c * (config.upgrade_value_multiplier - 1)),
        status := flightCashBand config d c }
    c (by simp [hdt]) (by simp [hp]) ⟨by simpa using hair, by simp [hcab]⟩ hfam
  refine ⟨_, _, e1, e2, rfl, rfl, ?_, rfl, rfl, rfl⟩
  intro heq
  have hl := congrArg String.length heq
  simp only [String.length_append] at hl
  have h31 : (0 : ℕ) < " [Diamond upgrade potential: +$".length := by decide
  have hlen : (diamondNote
      (config.upgrade_probability * c * (config.upgrade_value_multiplier - 1))).length =
      " [Diamond upgrade potential: +$".length +
        (toString (pyRoundInt (config.upgrade_probability * c *
          (config.upgrade_value_multiplier - 1)))).length +
        " expected value]".length := by
    simp [diamondNote, String.length_append]
  omega

/-- Witness for C10 at the concrete Delta economy cash deal. -/
theorem delta_note_accumulates_witness :
    ∃ r1 r2,
      evaluate_flight_deal testConfig baseFlight none = Except.ok r1 ∧
      evaluate_flight_deal testConfig r1 none = Except.ok r2 ∧
      r1.notes = baseFlight.notes ++ diamondNote
        (testConfig.upgrade_probability * 1600 *
          (testConfig.upgrade_value_multiplier - 1)) ∧
      r2.notes = baseFlight.notes ++ diamondNote
        (testConfig.upgrade_probability * 1600 *
          (testConfig.upgrade_value_multiplier - 1)) ++
        diamondNote (testConfig.upgrade_probability * 1600 *
          (testConfig.upgrade_value_multiplier - 1)) ∧
      r2.notes ≠ r1.notes ∧
      r2.status = r1.status ∧ r2.total_value = r1.total_value ∧
      r2.cpp_value = r1.cpp_value :=
  delta_note_accumulates testConfig baseFlight 1600 rfl rfl (by decide) rfl
    (by norm_num [testConfig])
